import Mathlib

/-!
Fashion store: order submission endpoint and Telegram admin bot.

A shallow embedding of `src/pages/api/orders.js` (the order submission
handler) and `src/fashion_telegram_admin_bot.js` (the admin bot), followed by
theorems about them.

Modelling conventions.

* JavaScript numbers that occur here (ids, prices, totals, chat ids) are
  integers and are modelled by `Int`; `NaN` is modelled separately where the
  code can produce it (`parseInt`).
* A property that may be absent from a JSON object is an `Option`; `none`
  stands for `undefined`.
* External collaborators (the order store, the Telegram HTTP API, the clock,
  `Number.prototype.toLocaleString`) are parameters of the model.  Every call
  made to them is recorded in an effect trace, in program order.
-/

namespace FashionStore

/-! ## Shared data model -/

/-- The `selectedColor` record of a line item. -/
structure Color where
  name : Option String
  deriving DecidableEq, Repr

/-- A line item, restricted to the properties the code reads.  Each property
may be absent, as nothing validates the shape of an item. -/
structure Item where
  name : Option String
  price : Option Int
  selectedSize : Option String
  selectedColor : Option Color
  deriving DecidableEq, Repr

/-- A row of the `orders` table, as returned by the store. -/
structure Order where
  id : Int
  customer_name : String
  customer_phone : String
  customer_address : String
  customer_comment : String
  items : Option (List Item)
  total : Int
  status : String
  created_at : String
  deriving DecidableEq, Repr

/-- Outcome of an awaited store query ending in `.single()` (or of a plain
query for `T = Unit` / a list): the resolved object carries either `data` or
`error`, or the awaited promise rejects. -/
inductive StoreResult (T : Type) where
  | data (row : T)
  | error (e : String)
  | thrown (e : String)
  deriving DecidableEq, Repr

/-- Text that a template literal prints for an optional string. -/
def showOpt : Option String → String
  | some s => s
  | none => "undefined"

/-- JavaScript truthiness of an optional string. -/
def truthyStr : Option String → Bool
  | some s => decide (s ≠ "")
  | none => false

/-- JavaScript truthiness of an optional (or null) integer. -/
def truthyNum : Option Int → Bool
  | some n => decide (n ≠ 0)
  | none => false

/-! ## `src/pages/api/orders.js` -/

/-- The `customer` object of a request body. -/
structure Customer where
  name : Option String
  phone : Option String
  address : Option String
  comment : Option String
  deriving DecidableEq, Repr

/-- The JSON object `req.body`; each of the three destructured properties may
be absent. -/
structure OrderBody where
  customer : Option Customer
  items : Option (List Item)
  total : Option Int
  deriving DecidableEq, Repr

structure Request where
  method : String
  body : OrderBody
  deriving DecidableEq, Repr

/-- The object literal passed to `.insert(...)`. -/
structure NewOrder where
  customer_name : Option String
  customer_phone : Option String
  customer_address : Option String
  customer_comment : String
  items : Option (List Item)
  total : Option Int
  status : String
  created_at : String
  deriving DecidableEq, Repr

/-- Outcome of the awaited `fetch` to the Telegram API. -/
inductive FetchResult where
  | ok
  | notOk (body : String)
  | thrown (e : String)
  deriving DecidableEq, Repr

/-- What the handler's surroundings provide: `getSupabase()` (`none` when it
returns a falsy client), the two environment variables, `fetch`, the clock
and the number formatter. -/
structure ApiEnv where
  supabase : Option (NewOrder → StoreResult Order)
  botToken : Option String
  chatId : Option String
  fetch : String → String → String → FetchResult
  nowISO : String
  nowLocal : String
  toLocaleString : Int → String

/-- Calls the handler makes to its two sinks. -/
inductive ApiEffect where
  | insert (o : NewOrder)
  | sendMessage (url : String) (chatId : String) (text : String)
  deriving DecidableEq, Repr

/-- The JSON bodies the handler can respond with. -/
inductive ResponseBody where
  | error (error : String)
  | accepted (success : Bool) (message : String) (orderId : Option Int)
      (savedToDatabase : Bool) (sentToTelegram : Bool)
  | failed (error : String) (telegramConfigured : Bool) (databaseConfigured : Bool)
  deriving DecidableEq, Repr

structure Response where
  status : Nat
  body : ResponseBody
  deriving DecidableEq, Repr

/-- The optional chain `customer?.f`. -/
def custField (c : Option Customer) (f : Customer → Option String) : Option String :=
  c.bind f

/-- The test `!items || items.length === 0` (an array is always truthy). -/
def itemsMissingOrEmpty : Option (List Item) → Bool
  | none => true
  | some xs => xs.length == 0

/-- The test `total <= 0`; with `total` undefined the comparison is against
`NaN` and is false. -/
def totalLeZero : Option Int → Bool
  | none => false
  | some t => decide (t ≤ 0)

/-- The expression `customer.comment || ''`. -/
def commentOrEmpty (c : Option String) : String :=
  if truthyStr c then showOpt c else ""

/-- One element of `items.map(...)`: the three-line description of an item.
Reading `.name` of an absent `selectedColor`, or calling `.toLocaleString()`
on an absent `price`, throws a `TypeError`. -/
def formatItem (fmt : Int → String) (i : Nat) (item : Item) : Except String String :=
  match item.selectedColor with
  | none => .error "TypeError: Cannot read properties of undefined (reading name)"
  | some color =>
    match item.price with
    | none => .error "TypeError: Cannot read properties of undefined (reading toLocaleString)"
    | some price =>
      .ok (toString (i + 1) ++ ". " ++ showOpt item.name ++ "\n" ++
        "   Размер: " ++ showOpt item.selectedSize ++ " | Цвет: " ++ showOpt color.name ++ "\n" ++
        "   Цена: " ++ fmt price ++ " ₸")

/-- The expression `items.map(...).join('\n\n')`. -/
def formatItems (fmt : Int → String) (items : List Item) : Except String String :=
  (items.enum.mapM (fun p => formatItem fmt p.1 p.2)).map (String.intercalate "\n\n")

/-- The template literal `orderText`, trimmed. -/
def orderText (env : ApiEnv) (customer : Option Customer) (itemsList : String)
    (total : Option Int) (orderId : Option Int) (savedToDb : Bool) : Except String String :=
  match total with
  | none => .error "TypeError: Cannot read properties of undefined (reading toLocaleString)"
  | some t =>
    .ok (("\n🆕 *Новый заказ*" ++
      (if truthyNum orderId then " #" ++ toString (orderId.getD 0) else "") ++ "!\n\n" ++
      "👤 *Клиент:* " ++ showOpt (custField customer (·.name)) ++ "\n" ++
      "📱 *Телефон:* " ++ showOpt (custField customer (·.phone)) ++ "\n" ++
      "📍 *Адрес:* " ++ showOpt (custField customer (·.address)) ++ "\n" ++
      (if truthyStr (custField customer (·.comment))
        then "💬 *Комментарий:* " ++ showOpt (custField customer (·.comment)) else "") ++ "\n\n" ++
      "📦 *Товары:*\n" ++ itemsList ++ "\n\n" ++
      "💰 *Итого:* " ++ env.toLocaleString t ++ " ₸\n\n" ++
      (if savedToDb then "✅ Сохранено в БД" else "⚠️ БД не подключена") ++ "\n" ++
      env.nowLocal ++ "\n        ").trim)

/-- The object literal built for `.insert(...)` (lines 33-42). -/
def newOrder (env : ApiEnv) (body : OrderBody) : NewOrder :=
  { customer_name := custField body.customer (·.name)
    customer_phone := custField body.customer (·.phone)
    customer_address := custField body.customer (·.address)
    customer_comment := commentOrEmpty (custField body.customer (·.comment))
    items := body.items
    total := body.total
    status := "new"
    created_at := env.nowISO }

/-- The store block (lines 24-58): yields `orderId`, `savedToDb` and the
store calls made. -/
def persist (env : ApiEnv) (body : OrderBody) : Option Int × Bool × List ApiEffect :=
  match env.supabase with
  | none => (none, false, [])
  | some insert =>
    match insert (newOrder env body) with
    | .data row => (some row.id, true, [.insert (newOrder env body)])
    | .error _ => (none, false, [.insert (newOrder env body)])
    | .thrown _ => (none, false, [.insert (newOrder env body)])

/-- The Telegram block (lines 60-117): yields `sentToTelegram` and the sends
made.  Any exception raised while building the text is caught and leaves
`sentToTelegram` false, with nothing sent. -/
def notify (env : ApiEnv) (body : OrderBody) (orderId : Option Int) (savedToDb : Bool) :
    Bool × List ApiEffect :=
  if truthyStr env.botToken && truthyStr env.chatId then
    match formatItems env.toLocaleString (body.items.getD []) with
    | .error _ => (false, [])
    | .ok itemsList =>
      match orderText env body.customer itemsList body.total orderId savedToDb with
      | .error _ => (false, [])
      | .ok text =>
        let url := "https://api.telegram.org/bot" ++ showOpt env.botToken ++ "/sendMessage"
        let call := ApiEffect.sendMessage url (showOpt env.chatId) text
        match env.fetch url (showOpt env.chatId) text with
        | .ok => (true, [call])
        | .notOk _ => (false, [call])
        | .thrown _ => (false, [call])
  else (false, [])

/-- The expression `orderId || null`. -/
def orNull (orderId : Option Int) : Option Int :=
  if truthyNum orderId then orderId else none

/-- The result block (lines 119-138). -/
def respond (env : ApiEnv) (orderId : Option Int) (savedToDb sentToTelegram : Bool) : Response :=
  if savedToDb || sentToTelegram then
    { status := 200
      body := .accepted true "Заказ принят" (orNull orderId) savedToDb sentToTelegram }
  else
    { status := 500
      body := .failed "Ошибка: заказ не отправлен ни в Telegram, ни в БД"
        (truthyStr env.botToken && truthyStr env.chatId) env.supabase.isSome }

/-- The request handler of `src/pages/api/orders.js`: the response and the
trace of sink calls. -/
def handler (env : ApiEnv) (req : Request) : Response × List ApiEffect :=
  if req.method ≠ "POST" then
    ({ status := 405, body := .error "Метод не допускается" }, [])
  else if !truthyStr (custField req.body.customer (·.name))
      || !truthyStr (custField req.body.customer (·.phone))
      || !truthyStr (custField req.body.customer (·.address)) then
    ({ status := 400, body := .error "Заполните все обязательные поля" }, [])
  else if itemsMissingOrEmpty req.body.items then
    ({ status := 400, body := .error "Корзина пуста" }, [])
  else if totalLeZero req.body.total then
    ({ status := 400, body := .error "Некорректная сумма" }, [])
  else
    let p := persist env req.body
    let n := notify env req.body p.1 p.2.1
    (respond env p.1 p.2.1 n.1, p.2.2 ++ n.2)

/-! ## `src/fashion_telegram_admin_bot.js`: values and string primitives -/

/-- A JavaScript number that is an integer or `NaN` (what `parseInt` returns). -/
inductive JSNum where
  | int (n : Int)
  | nan
  deriving DecidableEq, Repr

/-- Conversion of a number to a string, as in a template literal or a property key. -/
def JSNum.toStr : JSNum → String
  | .int n => toString n
  | .nan => "NaN"

/-- The white space and line terminator code points that `parseInt` skips. -/
def isStrWhiteSpace (c : Char) : Bool :=
  c.toNat ∈ [0x9, 0xA, 0xB, 0xC, 0xD, 0x20, 0xA0, 0x1680, 0x2000, 0x2001, 0x2002, 0x2003,
    0x2004, 0x2005, 0x2006, 0x2007, 0x2008, 0x2009, 0x200A, 0x2028, 0x2029, 0x202F, 0x205F,
    0x3000, 0xFEFF]

/-- Value of a character as a digit (letters count from 10, either case). -/
def digitValue (c : Char) : Option Nat :=
  if '0' ≤ c ∧ c ≤ '9' then some (c.toNat - '0'.toNat)
  else if 'a' ≤ c ∧ c ≤ 'z' then some (c.toNat - 'a'.toNat + 10)
  else if 'A' ≤ c ∧ c ≤ 'Z' then some (c.toNat - 'A'.toNat + 10)
  else none

/-- Whether `c` is a digit of the given radix. -/
def isRadixDigit (radix : Nat) (c : Char) : Bool :=
  match digitValue c with
  | some d => decide (d < radix)
  | none => false

/-- Value of a digit sequence in the given radix, most significant digit first. -/
def digitsValue (radix : Nat) (cs : List Char) : Nat :=
  cs.foldl (fun acc c => acc * radix + (digitValue c).getD 0) 0

/-- Sign and rest of an input of `parseInt`, after the leading white space. -/
def splitSign : List Char → Bool × List Char
  | '-' :: cs => (true, cs)
  | '+' :: cs => (false, cs)
  | cs => (false, cs)

/-- Radix and rest, after an optional `0x` / `0X` prefix. -/
def splitRadix : List Char → Nat × List Char
  | '0' :: 'x' :: cs => (16, cs)
  | '0' :: 'X' :: cs => (16, cs)
  | cs => (10, cs)

/-- The builtin `parseInt(string)` with no radix argument, on a list of characters. -/
def parseIntChars (cs : List Char) : JSNum :=
  let s := splitSign (cs.dropWhile isStrWhiteSpace)
  let r := splitRadix s.2
  let z := r.2.takeWhile (isRadixDigit r.1)
  if z.isEmpty then .nan
  else if s.1 then .int (-(digitsValue r.1 z : Int))
  else .int (digitsValue r.1 z)

/-- The builtin `parseInt(x)`; an `undefined` argument is converted to the
string `undefined`, which has no digits. -/
def parseInt : Option String → JSNum
  | some s => parseIntChars s.data
  | none => .nan

/-- The test `s.startsWith(p)`. -/
def startsWith (s p : String) : Bool :=
  p.data.isPrefixOf s.data

/-- Removal of the first occurrence of `pat` from a list of characters. -/
def removeFirst (pat : List Char) : List Char → List Char
  | [] => []
  | c :: cs => if pat.isPrefixOf (c :: cs) then (c :: cs).drop pat.length
      else c :: removeFirst pat cs

/-- The expression `s.replace(pat, '')`. -/
def replaceWithEmpty (s pat : String) : String :=
  String.mk (removeFirst pat.data s.data)

/-- Splitting of a list of characters at every occurrence of `sep`. -/
def splitChars (sep : Char) : List Char → List (List Char)
  | [] => [[]]
  | c :: cs =>
    if c = sep then [] :: splitChars sep cs
    else
      match splitChars sep cs with
      | [] => [[c]]
      | h :: t => (c :: h) :: t

/-- The expression `s.split('_')`. -/
def splitUnderscore (s : String) : List String :=
  (splitChars '_' s.data).map String.mk

/-! ## The mirror `orderCache` -/

/-- The object `orderCache`: its own properties in the order in which
`Object.values` enumerates them.  A property key is the string form of a
number; entries are kept under the number itself. -/
abbrev OrderCache := List (JSNum × Order)

/-- The array index a key denotes, if it is one (integer keys from `0` to
`2^32 - 2` are enumerated first, in ascending order). -/
def arrayIndex : JSNum → Option Nat
  | .int n => if 0 ≤ n ∧ n < 4294967295 then some n.toNat else none
  | .nan => none

/-- Whether an existing entry is enumerated before a new array index `i`. -/
def beforeIndex (i : Nat) (e : JSNum × Order) : Bool :=
  match arrayIndex e.1 with
  | some j => decide (j < i)
  | none => false

/-- Whether an entry is the property with key `k`. -/
def hasKey (k : JSNum) (e : JSNum × Order) : Bool :=
  decide (e.1 = k)

/-- The read `orderCache[k]`. -/
def cacheGet (m : OrderCache) (k : JSNum) : Option Order :=
  (m.find? (hasKey k)).map (·.2)

/-- The assignment `orderCache[k] = v`: an existing property keeps its place;
a new array index is placed among the array indices in ascending order; any
other new key goes last. -/
def cacheSet (m : OrderCache) (k : JSNum) (v : Order) : OrderCache :=
  if m.any (hasKey k) then
    m.map (fun e => if hasKey k e then (k, v) else e)
  else
    match arrayIndex k with
    | some i => m.takeWhile (beforeIndex i) ++ (k, v) :: m.dropWhile (beforeIndex i)
    | none => m ++ [(k, v)]

/-- The statement `delete orderCache[k]`. -/
def cacheDelete (m : OrderCache) (k : JSNum) : OrderCache :=
  m.filter (fun e => !hasKey k e)

/-- The expression `Object.values(orderCache)`. -/
def cacheValues (m : OrderCache) : List Order :=
  m.map (·.2)

/-! ## The bot's surroundings and its calls -/

/-- Responses of the store client to the three queries the bot issues.  Each
event makes at most one query, so a response is a function of its arguments. -/
structure BotStore where
  selectAll : StoreResult (List Order)
  update : JSNum → Option String → StoreResult Order
  delete : JSNum → StoreResult Unit

/-- What the bot's surroundings provide: `TELEGRAM_ADMIN_ID`, `getSupabase()`
(`none` when it returns a falsy client) and the two locale formatters. -/
structure BotEnv where
  adminId : String
  supabase : Option BotStore
  toLocaleString : Int → String
  dateToLocale : String → String

/-- An inline keyboard button. -/
structure Button where
  text : String
  callback_data : String
  deriving DecidableEq, Repr

abbrev Keyboard := List (List Button)

/-- Destination of `bot.sendMessage`: a numeric chat id, or the string `adminId`. -/
inductive Chat where
  | id (n : Int)
  | name (s : String)
  deriving DecidableEq, Repr

/-- Calls the bot makes to the Telegram client, the timer and the store. -/
inductive BotEffect where
  | sendMessage (chat : Chat) (text : String) (markdown : Bool) (keyboard : Option Keyboard)
  | answerCallbackQuery (queryId : String) (text : Option String) (showAlert : Bool)
  | editMessageText (text : String) (chatId : Int) (messageId : Int)
  | deleteMessage (chatId : Int) (messageId : Int)
  | setTimeoutShowOrdersList (chatId : Int) (filter : String) (ms : Nat)
  | storeSelectAll
  | storeUpdate (id : JSNum) (status : Option String)
  | storeDelete (id : JSNum)
  deriving DecidableEq, Repr

/-- The table `statusEmoji` (own properties). -/
def statusEmoji (s : String) : Option String :=
  if s = "new" then some "🆕"
  else if s = "confirmed" then some "✅"
  else if s = "delivered" then some "🚚"
  else if s = "cancelled" then some "❌"
  else none

/-- The table `statusText` (own properties). -/
def statusText (s : String) : Option String :=
  if s = "new" then some "Новый заказ"
  else if s = "confirmed" then some "Подтвержден"
  else if s = "delivered" then some "Доставлен"
  else if s = "cancelled" then some "Отменен"
  else none

/-! ## The bot's views -/

/-- The orders a list view is about: `Object.values(orderCache)`, restricted
to the filter unless the filter is `all`. -/
def filterOrders (m : OrderCache) (filter : String) : List Order :=
  if filter ≠ "all" then (cacheValues m).filter (fun o => decide (o.status = filter))
  else cacheValues m

/-- The expression `order.items?.length || 0`. -/
def itemCount (o : Order) : Nat :=
  match o.items with
  | some xs => xs.length
  | none => 0

/-- The text one iteration of `displayOrders.forEach` appends. -/
def listRow (env : BotEnv) (idx : Nat) (order : Order) : String :=
  toString (idx + 1) ++ ". #" ++ toString order.id ++ " - " ++ order.customer_name ++ "\n" ++
  "   📦 " ++ toString (itemCount order) ++ " товаров | 💰 " ++
    env.toLocaleString order.total ++ "₸\n" ++
  "   " ++ showOpt (statusEmoji order.status) ++ " " ++ showOpt (statusText order.status) ++ "\n" ++
  "   📞 " ++ order.customer_phone ++ "\n\n"

/-- The orders that are rendered: `orders.slice(0, 10)`. -/
def displayOrders (orders : List Order) : List Order :=
  orders.take 10

/-- The text of the list view. -/
def listText (env : BotEnv) (orders : List Order) : String :=
  (displayOrders orders).enum.foldl (fun text p => text ++ listRow env p.1 p.2)
    ("📋 *Заказы* (" ++ toString orders.length ++ " всего)\n\n")

/-- The keyboard under the list view. -/
def listKeyboard : Keyboard :=
  [[⟨"🆕 Новые", "filter_new"⟩, ⟨"✅ Подтвержденные", "filter_confirmed"⟩],
   [⟨"🚚 Доставленные", "filter_delivered"⟩, ⟨"❌ Отменённые", "filter_cancelled"⟩],
   [⟨"📋 Все", "filter_all"⟩, ⟨"🔄 Обновить", "refresh"⟩]]

/-- The function `showOrdersList(chatId, filter)`. -/
def showOrdersList (env : BotEnv) (m : OrderCache) (chatId : Int) (filter : String) :
    List BotEffect :=
  if (filterOrders m filter).length == 0 then
    [.sendMessage (.id chatId) ("📭 Заказов не найдено (фильтр: " ++ filter ++ ")") false none]
  else
    [.sendMessage (.id chatId) (listText env (filterOrders m filter)) true (some listKeyboard)]

/-- The text one iteration of `order.items?.forEach` appends; it throws like
`formatItem`. -/
def detailItem (fmt : Int → String) (idx : Nat) (item : Item) : Except String String :=
  match item.selectedColor with
  | none => .error "TypeError: Cannot read properties of undefined (reading name)"
  | some color =>
    match item.price with
    | none => .error "TypeError: Cannot read properties of undefined (reading toLocaleString)"
    | some price =>
      .ok (toString (idx + 1) ++ ". " ++ showOpt item.name ++ "\n" ++
        "   Размер: " ++ showOpt item.selectedSize ++ " | Цвет: " ++ showOpt color.name ++ "\n" ++
        "   " ++ fmt price ++ "₸\n")

/-- The text of the detail view of an order. -/
def detailText (env : BotEnv) (order : Order) : Except String String :=
  match ((order.items.getD []).enum.mapM (fun p => detailItem env.toLocaleString p.1 p.2)) with
  | .error e => .error e
  | .ok rows =>
    .ok ("📦 *Заказ #" ++ toString order.id ++ "*\n\n" ++
      "👤 *Клиент:* " ++ order.customer_name ++ "\n" ++
      "📱 *Телефон:* " ++ order.customer_phone ++ "\n" ++
      "📍 *Адрес:* " ++ order.customer_address ++ "\n" ++
      (if order.customer_comment ≠ ""
        then "💬 *Комментарий:* " ++ order.customer_comment ++ "\n" else "") ++
      "\n📦 *Товары:*\n" ++ String.join rows ++
      "\n💰 *Итого:* " ++ env.toLocaleString order.total ++ "₸\n" ++
      showOpt (statusEmoji order.status) ++ " *Статус:* " ++ showOpt (statusText order.status) ++ "\n" ++
      "📅 " ++ env.dateToLocale order.created_at ++ "\n")

/-- The keyboard under the detail view; the tokens carry the `orderId`
argument of `showOrderDetail`. -/
def detailKeyboard (orderId : JSNum) : Keyboard :=
  [[⟨"✅ Подтвердить", "status_" ++ orderId.toStr ++ "_confirmed"⟩,
    ⟨"🚚 Доставлен", "status_" ++ orderId.toStr ++ "_delivered"⟩],
   [⟨"❌ Отменить", "status_" ++ orderId.toStr ++ "_cancelled"⟩,
    ⟨"🗑️ Удалить", "delete_" ++ orderId.toStr⟩],
   [⟨"◀️ Назад", "filter_all"⟩]]

/-- The function `showOrderDetail(chatId, orderId)`.  It reads the mirror
only.  An exception while rendering the items rejects the promise of this
async function before anything is sent. -/
def showOrderDetail (env : BotEnv) (m : OrderCache) (chatId : Int) (orderId : JSNum) :
    List BotEffect :=
  match cacheGet m orderId with
  | none => [.sendMessage (.id chatId) "❌ Заказ не найден" false none]
  | some order =>
    match detailText env order with
    | .error _ => []
    | .ok text => [.sendMessage (.id chatId) text true (some (detailKeyboard orderId))]

/-- The expression `Math.round(totalSum / orders.length)` for a positive
length: the quotient rounded to the nearest integer, halves upwards. -/
def roundDiv (totalSum : Int) (length : Nat) : Int :=
  (2 * totalSum + length) / (2 * length)

/-- The number of orders with a given status, `orders.filter(...).length`. -/
def countStatus (orders : List Order) (s : String) : Nat :=
  (orders.filter (fun o => decide (o.status = s))).length

/-- The expression `orders.reduce((sum, o) => sum + o.total, 0)`. -/
def totalSum (orders : List Order) : Int :=
  orders.foldl (fun sum o => sum + o.total) 0

/-- The text after `Средний заказ:`. -/
def meanText (env : BotEnv) (orders : List Order) : String :=
  if orders.length > 0 then env.toLocaleString (roundDiv (totalSum orders) orders.length)
  else "0"

/-- The statistics text of the `/stats` command. -/
def statsTextCommand (env : BotEnv) (orders : List Order) : String :=
  "\n📊 *СТАТИСТИКА*\n\n" ++
  "📋 Всего заказов: " ++ toString orders.length ++ "\n" ++
  "🆕 Новых: " ++ toString (countStatus orders "new") ++ "\n" ++
  "✅ Подтвержденных: " ++ toString (countStatus orders "confirmed") ++ "\n" ++
  "🚚 Доставленных: " ++ toString (countStatus orders "delivered") ++ "\n\n" ++
  "💰 Общая сумма: " ++ env.toLocaleString (totalSum orders) ++ "₸\n\n" ++
  "📈 Средний заказ: " ++ meanText env orders ++ "₸\n  "

/-- The statistics text of the `stats` button. -/
def statsTextButton (env : BotEnv) (orders : List Order) : String :=
  "\n📊 *СТАТИСТИКА*\n\n" ++
  "📋 Всего заказов: " ++ toString orders.length ++ "\n" ++
  "🆕 Новых: " ++ toString (countStatus orders "new") ++ "\n" ++
  "✅ Подтвержденных: " ++ toString (countStatus orders "confirmed") ++ "\n" ++
  "🚚 Доставленных: " ++ toString (countStatus orders "delivered") ++ "\n\n" ++
  "💰 Общая сумма: " ++ env.toLocaleString (totalSum orders) ++ "₸\n" ++
  "📈 Средний заказ: " ++ meanText env orders ++ "₸\n    "

/-! ## The bot's store operations -/

/-- The function `loadOrders()`: the new mirror and the store calls made. -/
def loadOrders (env : BotEnv) (m : OrderCache) : OrderCache × List BotEffect :=
  match env.supabase with
  | none => (m, [])
  | some store =>
    match store.selectAll with
    | .data rows => (rows.foldl (fun c order => cacheSet c (.int order.id) order) m, [.storeSelectAll])
    | .error _ => (m, [.storeSelectAll])
    | .thrown _ => (m, [.storeSelectAll])

/-- The function `updateOrderStatus(orderId, newStatus)`: its return value
(`none` for `undefined`), the new mirror and the store calls made. -/
def updateOrderStatus (env : BotEnv) (m : OrderCache) (orderId : JSNum)
    (newStatus : Option String) : Option Bool × OrderCache × List BotEffect :=
  match env.supabase with
  | none => (none, m, [])
  | some store =>
    match store.update orderId newStatus with
    | .data row => (some true, cacheSet m orderId row, [.storeUpdate orderId newStatus])
    | .error _ => (some false, m, [.storeUpdate orderId newStatus])
    | .thrown _ => (some false, m, [.storeUpdate orderId newStatus])

/-- The function `deleteOrder(orderId)`: its return value (`none` for
`undefined`), the new mirror and the store calls made. -/
def deleteOrder (env : BotEnv) (m : OrderCache) (orderId : JSNum) :
    Option Bool × OrderCache × List BotEffect :=
  match env.supabase with
  | none => (none, m, [])
  | some store =>
    match store.delete orderId with
    | .data _ => (some true, cacheDelete m orderId, [.storeDelete orderId])
    | .error _ => (some false, m, [.storeDelete orderId])
    | .thrown _ => (some false, m, [.storeDelete orderId])

/-- The function `notifyNewOrder(order)`. -/
def notifyNewOrder (env : BotEnv) (m : OrderCache) (order : Order) :
    OrderCache × List BotEffect :=
  match env.supabase with
  | none => (m, [])
  | some _ =>
    (cacheSet m (.int order.id) order,
     [.sendMessage (.name env.adminId)
        ("\n🆕 *НОВЫЙ ЗАКАЗ #" ++ toString order.id ++ "*\n\n" ++
         "👤 " ++ order.customer_name ++ "\n" ++
         "📱 " ++ order.customer_phone ++ "\n" ++
         "📍 " ++ order.customer_address ++ "\n\n" ++
         "📦 Товаров: " ++ toString (itemCount order) ++ "\n" ++
         "💰 Сумма: " ++ env.toLocaleString order.total ++ "₸\n\n" ++
         (if order.customer_comment ≠ "" then "💬 " ++ order.customer_comment else "") ++ "\n  ")
        true
        (some [[⟨"📋 Открыть", "order_" ++ toString order.id⟩],
               [⟨"✅ Подтвердить", "status_" ++ toString order.id ++ "_confirmed"⟩]])])

/-! ## The bot's handlers -/

/-- The handler of `/start`. -/
def onStart (env : BotEnv) (chatId : Int) : List BotEffect :=
  if toString chatId ≠ env.adminId then
    [.sendMessage (.id chatId) "❌ У вас нет доступа" false none]
  else
    [.sendMessage (.id chatId)
      ("\n👋 *Добро пожаловать в админку Fashion Store!*\n\n" ++
       "📊 *Возможности:*\n• Просмотр всех заказов\n• Изменение статуса\n" ++
       "• Удаление заказов\n• Статистика\n\n" ++
       "/orders - Все заказы\n/new - Только новые\n/stats - Статистика\n  ")
      true
      (some [[⟨"📋 Заказы", "filter_all"⟩], [⟨"🆕 Новые", "filter_new"⟩],
             [⟨"📊 Статистика", "stats"⟩]])]

/-- The handler of `/orders`. -/
def onOrders (env : BotEnv) (m : OrderCache) (chatId : Int) : List BotEffect :=
  if toString chatId ≠ env.adminId then
    [.sendMessage (.id chatId) "❌ Нет доступа" false none]
  else showOrdersList env m chatId "all"

/-- The handler of `/new`. -/
def onNew (env : BotEnv) (m : OrderCache) (chatId : Int) : List BotEffect :=
  if toString chatId ≠ env.adminId then
    [.sendMessage (.id chatId) "❌ Нет доступа" false none]
  else showOrdersList env m chatId "new"

/-- The handler of `/stats`. -/
def onStats (env : BotEnv) (m : OrderCache) (chatId : Int) : List BotEffect :=
  if toString chatId ≠ env.adminId then
    [.sendMessage (.id chatId) "❌ Нет доступа" false none]
  else
    [.sendMessage (.id chatId) (statsTextCommand env (cacheValues m)) true none]

/-- A button press: `query.id`, `query.message.chat.id`,
`query.message.message_id` and `query.data`. -/
structure CallbackQuery where
  id : String
  chatId : Int
  messageId : Int
  data : String
  deriving DecidableEq, Repr

/-- The elements `orderId` and `status` of `const [_, orderId, status] = data.split('_')`. -/
def statusParts (data : String) : Option String × Option String :=
  ((splitUnderscore data).get? 1, (splitUnderscore data).get? 2)

/-- The `status_` branch of the button handler (lines 328-339). -/
def onStatusButton (env : BotEnv) (m : OrderCache) (q : CallbackQuery) :
    OrderCache × List BotEffect :=
  let orderId := parseInt (statusParts q.data).1
  let status := (statusParts q.data).2
  let r := updateOrderStatus env m orderId status
  if r.1 = some true then
    (r.2.1, r.2.2 ++
      [.answerCallbackQuery q.id
        (some ("✅ Статус изменён на " ++ showOpt (statusText (showOpt status)))) true] ++
      showOrderDetail env r.2.1 q.chatId orderId)
  else
    (r.2.1, r.2.2 ++ [.answerCallbackQuery q.id (some "❌ Ошибка обновления") true])

/-- The `delete_` branch of the button handler (lines 342-354). -/
def onDeleteButton (env : BotEnv) (m : OrderCache) (q : CallbackQuery) :
    OrderCache × List BotEffect :=
  let orderId := parseInt (some (replaceWithEmpty q.data "delete_"))
  let r := deleteOrder env m orderId
  if r.1 = some true then
    (r.2.1, r.2.2 ++
      [.answerCallbackQuery q.id (some "✅ Заказ удалён") true,
       .deleteMessage q.chatId q.messageId] ++
      showOrdersList env r.2.1 q.chatId "all")
  else
    (r.2.1, r.2.2 ++ [.answerCallbackQuery q.id (some "❌ Ошибка удаления") true])

/-- The handler of `callback_query`: the new mirror and the calls made. -/
def onCallbackQuery (env : BotEnv) (m : OrderCache) (q : CallbackQuery) :
    OrderCache × List BotEffect :=
  if toString q.chatId ≠ env.adminId then
    (m, [.answerCallbackQuery q.id (some "❌ Нет доступа") true])
  else if startsWith q.data "filter_" then
    (m, [.editMessageText "⏳ Загрузка..." q.chatId q.messageId,
         .setTimeoutShowOrdersList q.chatId (replaceWithEmpty q.data "filter_") 500,
         .answerCallbackQuery q.id none false])
  else if startsWith q.data "order_" then
    (m, [.deleteMessage q.chatId q.messageId] ++
        showOrderDetail env m q.chatId (parseInt (some (replaceWithEmpty q.data "order_"))) ++
        [.answerCallbackQuery q.id none false])
  else if startsWith q.data "status_" then onStatusButton env m q
  else if startsWith q.data "delete_" then onDeleteButton env m q
  else if q.data = "stats" then
    (m, [.deleteMessage q.chatId q.messageId,
         .sendMessage (.id q.chatId) (statsTextButton env (cacheValues m)) true
           (some [[⟨"◀️ Назад", "filter_all"⟩]]),
         .answerCallbackQuery q.id none false])
  else if q.data = "refresh" then
    ((loadOrders env m).1, (loadOrders env m).2 ++
      [.answerCallbackQuery q.id (some "🔄 Обновлено") true] ++
      showOrdersList env (loadOrders env m).1 q.chatId "all")
  else (m, [])

/-- What the bot reacts to: the four text commands, a button press, the timer
set by a filter button, a call of the exported `notifyNewOrder`, and the
`loadOrders()` call at start-up. -/
inductive Event where
  | start (chatId : Int)
  | orders (chatId : Int)
  | new (chatId : Int)
  | stats (chatId : Int)
  | button (q : CallbackQuery)
  | timer (chatId : Int) (filter : String)
  | newOrder (order : Order)
  | startup
  deriving DecidableEq, Repr

/-- One reaction of the bot: the mirror afterwards and the calls made. -/
def handleEvent (env : BotEnv) (m : OrderCache) : Event → OrderCache × List BotEffect
  | .start chatId => (m, onStart env chatId)
  | .orders chatId => (m, onOrders env m chatId)
  | .new chatId => (m, onNew env m chatId)
  | .stats chatId => (m, onStats env m chatId)
  | .button q => onCallbackQuery env m q
  | .timer chatId filter => (m, showOrdersList env m chatId filter)
  | .newOrder order => notifyNewOrder env m order
  | .startup => loadOrders env m

/-! ## Vocabulary of the specification -/

/-- A text property that is present and not empty. -/
def IsSet : Option String → Prop
  | some s => s ≠ ""
  | none => False

instance : DecidablePred IsSet := fun v =>
  match v with
  | some s => inferInstanceAs (Decidable (s ≠ ""))
  | none => inferInstanceAs (Decidable False)

/-- A text property that is missing or empty. -/
def MissingOrEmpty : Option String → Prop
  | some s => s = ""
  | none => True

instance : DecidablePred MissingOrEmpty := fun v =>
  match v with
  | some s => inferInstanceAs (Decidable (s = ""))
  | none => inferInstanceAs (Decidable True)

/-- An `items` property that is present and not empty. -/
def NonEmptyItems : Option (List Item) → Prop
  | some xs => xs ≠ []
  | none => False

instance : DecidablePred NonEmptyItems := fun v =>
  match v with
  | some xs => inferInstanceAs (Decidable (xs ≠ []))
  | none => inferInstanceAs (Decidable False)

/-- An `items` property that is missing or empty. -/
def NoItems : Option (List Item) → Prop
  | some xs => xs = []
  | none => True

instance : DecidablePred NoItems := fun v =>
  match v with
  | some xs => inferInstanceAs (Decidable (xs = []))
  | none => inferInstanceAs (Decidable True)

/-- A `total` property that is a number greater than zero. -/
def PositiveTotal : Option Int → Prop
  | some t => 0 < t
  | none => False

instance : DecidablePred PositiveTotal := fun v =>
  match v with
  | some t => inferInstanceAs (Decidable (0 < t))
  | none => inferInstanceAs (Decidable False)

/-- The validation rules of the submission contract: name, phone and address
are non-empty, the items are non-empty, and the total is greater than zero. -/
def ValidSubmission (b : OrderBody) : Prop :=
  IsSet (custField b.customer (·.name)) ∧ IsSet (custField b.customer (·.phone)) ∧
  IsSet (custField b.customer (·.address)) ∧ NonEmptyItems b.items ∧ PositiveTotal b.total

instance : DecidablePred ValidSubmission := fun b => by
  unfold ValidSubmission; infer_instance

/-- Every item of the request has the properties the notification text reads
through: a colour record and a price. -/
def itemsFormattable (items : Option (List Item)) : Bool :=
  (items.getD []).all (fun item => item.selectedColor.isSome && item.price.isSome)

/-- A `POST` request with the given body. -/
def post (body : OrderBody) : Request :=
  { method := "POST", body := body }

/-- The chat delivery succeeded: the handler sent a message and the Telegram
API answered it with an ok response. -/
def Delivered (env : ApiEnv) (trace : List ApiEffect) : Prop :=
  ∃ url chat text, ApiEffect.sendMessage url chat text ∈ trace ∧ env.fetch url chat text = .ok

/-- The store insert succeeded: the store is configured and answered the
handler's insert with the generated row. -/
def Stored (env : ApiEnv) (body : OrderBody) (row : Order) : Prop :=
  ∃ insert, env.supabase = some insert ∧ insert (newOrder env body) = .data row

/-! ## Sample data -/

/-- A line item of the storefront. -/
def sampleItem : Item :=
  { name := some "Куртка", price := some 7500, selectedSize := some "M",
    selectedColor := some { name := some "Чёрный" } }

def sampleCustomer : Customer :=
  { name := some "Алия", phone := some "+77001234567", address := some "Алматы, Абая 1",
    comment := none }

/-- An order of two items totalling 15000. -/
def sampleBody : OrderBody :=
  { customer := some sampleCustomer, items := some [sampleItem, sampleItem], total := some 15000 }

/-- The row the sample store generates, under a given id. -/
def sampleRow (id : Int) : Order :=
  { id := id, customer_name := "Алия", customer_phone := "+77001234567",
    customer_address := "Алматы, Абая 1", customer_comment := "",
    items := some [sampleItem, sampleItem], total := 15000, status := "new",
    created_at := "2024-05-01T10:00:00.000Z" }

/-- An environment of the handler, given the store client, the two Telegram
variables and the answer of the Telegram API. -/
def sampleEnv (supabase : Option (NewOrder → StoreResult Order)) (botToken chatId : Option String)
    (answer : FetchResult) : ApiEnv :=
  { supabase := supabase, botToken := botToken, chatId := chatId,
    fetch := fun _ _ _ => answer,
    nowISO := "2024-05-01T10:00:00.000Z", nowLocal := "01.05.2024, 15:00:00",
    toLocaleString := fun n => toString n }

/-- Both sinks configured and healthy; the store assigns the given id. -/
def healthyEnv (id : Int) : ApiEnv :=
  sampleEnv (some (fun _ => .data (sampleRow id))) (some "123456:ABC") (some "987654321") .ok

/-- The sample order without its `total` property. -/
def bodyWithoutTotal : OrderBody :=
  { sampleBody with total := none }

/-! ## Vocabulary and sample data for the bot -/

/-- Whether a call goes to the store. -/
def BotEffect.isStoreCall : BotEffect → Bool
  | .storeSelectAll => true
  | .storeUpdate _ _ => true
  | .storeDelete _ => true
  | _ => false

/-- The items of a row have the shape the data model gives them: each carries
a colour record and a price. -/
def wellFormedItems (o : Order) : Bool :=
  (o.items.getD []).all (fun item => item.selectedColor.isSome && item.price.isSome)

/-- A press of the set-status button for order `id`, carrying the token the
detail view and the new-order message produce. -/
def setStatusPress (queryId : String) (chatId messageId id : Int) (status : String) : Event :=
  .button { id := queryId, chatId := chatId, messageId := messageId,
            data := "status_" ++ toString id ++ "_" ++ status }

/-- A press of the delete button for order `id`. -/
def deletePress (queryId : String) (chatId messageId id : Int) : Event :=
  .button { id := queryId, chatId := chatId, messageId := messageId,
            data := "delete_" ++ toString id }

/-- A press of the open button for order `id`. -/
def openPress (queryId : String) (chatId messageId id : Int) : Event :=
  .button { id := queryId, chatId := chatId, messageId := messageId,
            data := "order_" ++ toString id }

/-- A store client that performs every query. -/
def okStore : BotStore :=
  { selectAll := .data [sampleRow 42, sampleRow 41]
    update := fun id status =>
      match id with
      | .int n => .data { sampleRow n with status := showOpt status }
      | .nan => .error "invalid input syntax for type bigint"
    delete := fun _ => .data () }

/-- A store client whose every query is answered with an error. -/
def failingStore : BotStore :=
  { selectAll := .error "connection refused"
    update := fun _ _ => .error "connection refused"
    delete := fun _ => .error "connection refused" }

/-- An environment of the bot whose administrator is chat 123456789. -/
def sampleBotEnv (supabase : Option BotStore) : BotEnv :=
  { adminId := "123456789", supabase := supabase,
    toLocaleString := fun n => toString n, dateToLocale := fun s => s }

/-- A mirror holding the orders 41 and 42. -/
def sampleMirror : OrderCache :=
  [(.int 41, sampleRow 41), (.int 42, sampleRow 42)]

/-! ## `src/pages/index.js`: cart and checkout -/

/-- An entry of the cart, restricted to the properties the code reads: a
catalogue product (name, price) with the chosen size and colour and the
`cartId` given by `addToCart`. -/
structure CartItem where
  name : String
  price : Int
  selectedSize : String
  selectedColor : Color
  cartId : Int
  deriving DecidableEq, Repr

/-- The state `form` of the checkout view. -/
structure CheckoutForm where
  name : String
  phone : String
  address : String
  comment : String
  deriving DecidableEq, Repr

/-- The function `getTotalPrice()`, on the state `cart`. -/
def getTotalPrice (cart : List CartItem) : Int :=
  cart.foldl (fun sum item => sum + item.price) 0

/-- The test `!s.trim()`: the string is empty once trimmed. -/
def isBlank (s : String) : Bool :=
  s.data.all isStrWhiteSpace

/-- A character of the class `[0-9\s\-\(\)]`. -/
def isPhoneChar (c : Char) : Bool :=
  decide ('0' ≤ c ∧ c ≤ '9') || isStrWhiteSpace c || c == '-' || c == '(' || c == ')'

/-- The characters of a phone number after the optional leading plus sign. -/
def dropPlus : List Char → List Char
  | '+' :: cs => cs
  | cs => cs

/-- The test of the regular expression `^\+?[0-9\s\-\(\)]{10,}$`. -/
def phoneMatches (s : String) : Bool :=
  decide (10 ≤ (dropPlus s.data).length) && (dropPlus s.data).all isPhoneChar

/-- The function `validateForm()`: whether `newErrors` stays empty. -/
def validateForm (form : CheckoutForm) : Bool :=
  !isBlank form.name && !isBlank form.phone && phoneMatches form.phone && !isBlank form.address

/-- The JSON form of a cart entry, as the order endpoint reads it. -/
def CartItem.toItem (c : CartItem) : Item :=
  { name := some c.name, price := some c.price, selectedSize := some c.selectedSize,
    selectedColor := some c.selectedColor }

/-- The function `handleSubmit()`: the request it sends to `/api/orders`, or
`none` when the form is rejected and nothing is sent. -/
def handleSubmit (form : CheckoutForm) (cart : List CartItem) : Option Request :=
  if !validateForm form then none
  else
    some
      { method := "POST"
        body :=
          { customer := some { name := some form.name, phone := some form.phone,
                               address := some form.address, comment := some form.comment }
            items := some (cart.map CartItem.toItem)
            total := some (getTotalPrice cart) } }

/-- A checkout form that passes the check. -/
def sampleForm : CheckoutForm :=
  { name := "Алия", phone := "+7 (700) 123-45-67", address := "Алматы, Абая 1", comment := "" }

/-- A cart of two entries, of 7500 and 5000. -/
def sampleCart : List CartItem :=
  [{ name := "Куртка", price := 7500, selectedSize := "M",
     selectedColor := { name := some "Чёрный" }, cartId := 1714557600000 },
   { name := "Платье", price := 5000, selectedSize := "S",
     selectedColor := { name := some "Белый" }, cartId := 1714557660000 }]

/-- The request the storefront sends for the sample form and cart. -/
def sampleCheckoutRequest : Request :=
  { method := "POST"
    body :=
      { customer := some { name := some "Алия", phone := some "+7 (700) 123-45-67",
                           address := some "Алматы, Абая 1", comment := some "" }
        items := some (sampleCart.map CartItem.toItem)
        total := some 12500 } }

/-! ## Vocabulary for the views, the statistics and the dispatcher -/

/-- The prices of a sequence of items, when every item has one. -/
def pricesOf (items : List Item) : Option (List Int) :=
  items.mapM (·.price)

/-- A press of the refresh button. -/
def refreshPress (queryId : String) (chatId messageId : Int) : Event :=
  .button { id := queryId, chatId := chatId, messageId := messageId, data := "refresh" }

/-- A press of the statistics button. -/
def statsPress (queryId : String) (chatId messageId : Int) : Event :=
  .button { id := queryId, chatId := chatId, messageId := messageId, data := "stats" }

/-- A press of a filter button. -/
def filterPress (queryId : String) (chatId messageId : Int) (filter : String) : Event :=
  .button { id := queryId, chatId := chatId, messageId := messageId,
            data := "filter_" ++ filter }

/-- The orders a filter selects, in the words of the specification: the
mirrored orders whose status equals the filter, all orders for the filter
`all`, in the iteration order of the mirror.  It is stated on the entries of
the mirror and compared with `filterOrders` of the code in
`filterOrders_eq_matching`. -/
def matchingOrders (m : OrderCache) (filter : String) : List Order :=
  (m.filter (fun e => decide (filter = "all" ∨ e.2.status = filter))).map (·.2)

/-- The status lines of the statistics texts: the status counted, the label
in front of the count, and the count (`newCount`, `confirmedCount`,
`deliveredCount`). -/
def statusLines (orders : List Order) : List (String × String × Nat) :=
  [("new", "🆕 Новых: ", countStatus orders "new"),
   ("confirmed", "✅ Подтвержденных: ", countStatus orders "confirmed"),
   ("delivered", "🚚 Доставленных: ", countStatus orders "delivered")]

/-- The text of the status lines. -/
def renderStatusLines (lines : List (String × String × Nat)) : String :=
  String.join (lines.map (fun l => l.2.1 ++ toString l.2.2 ++ "\n"))

/-- The action tokens on a keyboard. -/
def keyboardTokens (k : Keyboard) : List String :=
  k.flatten.map (·.callback_data)

/-- The action tokens a call puts in front of the user. -/
def effectTokens : BotEffect → List String
  | .sendMessage _ _ _ (some k) => keyboardTokens k
  | _ => []

/-- The branches of the button handler. -/
inductive Branch where
  | filter
  | order
  | status
  | delete
  | stats
  | refresh
  deriving DecidableEq, Repr

/-- The condition of the `if` statement that guards a branch. -/
def branchTest (data : String) : Branch → Bool
  | .filter => startsWith data "filter_"
  | .order => startsWith data "order_"
  | .status => startsWith data "status_"
  | .delete => startsWith data "delete_"
  | .stats => decide (data = "stats")
  | .refresh => decide (data = "refresh")

/-- The branches whose condition a token satisfies. -/
def matchingBranches (data : String) : List Branch :=
  [Branch.filter, .order, .status, .delete, .stats, .refresh].filter (branchTest data)

/-- The sample row under a given id, with a given status, total and creation
time. -/
def orderWith (id : Int) (status : String) (total : Int) (createdAt : String) : Order :=
  { sampleRow id with status := status, total := total, created_at := createdAt }

/-- A mirror of three orders: 41 and 43 are new, 42 is confirmed. -/
def mixedMirror : OrderCache :=
  [(.int 41, orderWith 41 "new" 15000 "2024-05-01T10:00:00.000Z"),
   (.int 42, orderWith 42 "confirmed" 9000 "2024-05-02T10:00:00.000Z"),
   (.int 43, orderWith 43 "new" 7000 "2024-05-03T10:00:00.000Z")]

/-- A store client that answers the select-all query with the given rows. -/
def storeReturning (rows : List Order) : BotStore :=
  { okStore with selectAll := .data rows }

/-! ## The order store as a table -/

/-- Modelled from the spec: the status write of update-status-by-id on one
row of the Order Store (section 6). -/
def setRowStatus (n : Int) (s : String) (r : Order) : Order :=
  if r.id = n then { r with status := s } else r

/-- Modelled from the spec: update-status-by-id of the Order Store (section 6)
on a table whose rows have pairwise distinct ids.  It returns the updated
record, or a failure when no row has the id or no status is given; the second
component is the table afterwards. -/
def tableUpdate (t : List Order) : JSNum → Option String → StoreResult Order × List Order
  | .int n, some s =>
    match t.find? (fun r => decide (r.id = n)) with
    | some r => (.data { r with status := s }, t.map (setRowStatus n s))
    | none => (.error "no rows returned", t)
  | _, _ => (.error "invalid request", t)

/-- Modelled from the spec: the Order Store (section 6) holding the table
`t`, as the store client the bot sees when it issues one query. -/
def tableStore (t : List Order) : BotStore :=
  { selectAll := .data t
    update := fun id status => (tableUpdate t id status).1
    delete := fun _ => .data () }

/-- One call `updateOrderStatus(orderId, newStatus)` against the table `t`
with the mirror `m`: the return value, the table and the mirror afterwards. -/
def updateAgainstTable (env : BotEnv) (t : List Order) (m : OrderCache) (orderId : JSNum)
    (newStatus : Option String) : Option Bool × List Order × OrderCache :=
  ((updateOrderStatus { env with supabase := some (tableStore t) } m orderId newStatus).1,
   (tableUpdate t orderId newStatus).2,
   (updateOrderStatus { env with supabase := some (tableStore t) } m orderId newStatus).2.1)

/-! ## Runs of the bot -/

/-- What can change the mirror: the reload `loadOrders()`, a call of one of
the exported functions `notifyNewOrder`, `updateOrderStatus` and
`deleteOrder`, or an event the bot reacts to. -/
inductive MirrorOp where
  | reload
  | notify (order : Order)
  | setStatus (orderId : JSNum) (newStatus : Option String)
  | delete (orderId : JSNum)
  | event (ev : Event)
  deriving DecidableEq, Repr

/-- The mirror after one operation, in the surroundings the operation runs in. -/
def applyOp (env : BotEnv) (m : OrderCache) : MirrorOp → OrderCache
  | .reload => (loadOrders env m).1
  | .notify order => (notifyNewOrder env m order).1
  | .setStatus orderId newStatus => (updateOrderStatus env m orderId newStatus).2.1
  | .delete orderId => (deleteOrder env m orderId).2.1
  | .event ev => (handleEvent env m ev).1

/-- The mirror after a run: a sequence of operations from the empty mirror,
each in its own surroundings (the store answers as it stands at that time). -/
def runFrom (m : OrderCache) (steps : List (BotEnv × MirrorOp)) : OrderCache :=
  steps.foldl (fun c s => applyOp s.1 c s.2) m

/-- The mirror after a run from the empty mirror `{}`. -/
def mirrorAfter (steps : List (BotEnv × MirrorOp)) : OrderCache :=
  runFrom [] steps

/-- The store answers an update-by-id only with a record of the requested id. -/
def UpdateReturnsRequestedId (env : BotEnv) : Prop :=
  ∀ store, env.supabase = some store →
    ∀ (orderId : JSNum) (newStatus : Option String) (row : Order),
      store.update orderId newStatus = .data row → orderId = .int row.id

/-- The mirror keeps every order under its own id, and no key twice. -/
def KeysAreIds (m : OrderCache) : Prop :=
  (∀ e ∈ m, e.1 = .int e.2.id) ∧ (m.map (·.1)).Nodup

/-- A run of five steps over the sample store: reload, announce order 43,
confirm order 42 by its button, delete order 41, confirm order 43 by a call. -/
def sampleRun : List (BotEnv × MirrorOp) :=
  [(sampleBotEnv (some okStore), .reload),
   (sampleBotEnv (some okStore), .notify (sampleRow 43)),
   (sampleBotEnv (some okStore), .event (setStatusPress "q1" 123456789 7 42 "confirmed")),
   (sampleBotEnv (some okStore), .event (deletePress "q2" 123456789 8 41)),
   (sampleBotEnv (some okStore), .setStatus (.int 43) (some "confirmed"))]

/-! ## Lemmas on the order submission handler -/

theorem truthyStr_iff (v : Option String) : truthyStr v = true ↔ IsSet v := by
  cases v <;> simp [truthyStr, IsSet]

theorem truthyStr_false_iff (v : Option String) : truthyStr v = false ↔ MissingOrEmpty v := by
  cases v <;> simp [truthyStr, MissingOrEmpty]

theorem itemsMissingOrEmpty_false_iff (v : Option (List Item)) :
    itemsMissingOrEmpty v = false ↔ NonEmptyItems v := by
  cases v <;> simp [itemsMissingOrEmpty, NonEmptyItems]

theorem itemsMissingOrEmpty_iff (v : Option (List Item)) :
    itemsMissingOrEmpty v = true ↔ NoItems v := by
  cases v <;> simp [itemsMissingOrEmpty, NoItems]

theorem totalLeZero_of_positive {v : Option Int} (h : PositiveTotal v) : totalLeZero v = false := by
  cases v with
  | none => exact absurd h (by simp [PositiveTotal])
  | some t => simpa [totalLeZero, PositiveTotal] using h

/-- A request that passes the four checks runs both sink blocks. -/
theorem handler_of_checks (env : ApiEnv) (body : OrderBody)
    (hn : truthyStr (custField body.customer (·.name)) = true)
    (hp : truthyStr (custField body.customer (·.phone)) = true)
    (ha : truthyStr (custField body.customer (·.address)) = true)
    (hi : itemsMissingOrEmpty body.items = false) (ht : totalLeZero body.total = false) :
    handler env (post body) =
      (respond env (persist env body).1 (persist env body).2.1
        (notify env body (persist env body).1 (persist env body).2.1).1,
       (persist env body).2.2 ++ (notify env body (persist env body).1 (persist env body).2.1).2) := by
  simp [handler, post, hn, hp, ha, hi, ht]

theorem handler_of_valid (env : ApiEnv) (body : OrderBody) (hv : ValidSubmission body) :
    handler env (post body) =
      (respond env (persist env body).1 (persist env body).2.1
        (notify env body (persist env body).1 (persist env body).2.1).1,
       (persist env body).2.2 ++ (notify env body (persist env body).1 (persist env body).2.1).2) := by
  obtain ⟨hn, hp, ha, hi, ht⟩ := hv
  exact handler_of_checks env body ((truthyStr_iff _).2 hn) ((truthyStr_iff _).2 hp)
    ((truthyStr_iff _).2 ha) ((itemsMissingOrEmpty_false_iff _).2 hi) (totalLeZero_of_positive ht)

/-- The store block records nothing but inserts of the handler's record. -/
theorem persist_trace (env : ApiEnv) (body : OrderBody) :
    ∀ e ∈ (persist env body).2.2, e = ApiEffect.insert (newOrder env body) := by
  intro e he
  unfold persist at he
  split at he
  · simp at he
  · split at he <;> simpa using he

theorem persist_of_stored {env : ApiEnv} {body : OrderBody} {row : Order}
    (h : Stored env body row) :
    persist env body = (some row.id, true, [.insert (newOrder env body)]) := by
  obtain ⟨insert, h1, h2⟩ := h
  simp [persist, h1, h2]

theorem persist_of_not_stored {env : ApiEnv} {body : OrderBody}
    (h : ∀ row, ¬ Stored env body row) :
    (persist env body).1 = none ∧ (persist env body).2.1 = false := by
  unfold persist
  split
  · simp
  · rename_i insert hs
    split
    · rename_i row hr
      exact absurd ⟨insert, hs, hr⟩ (h row)
    · simp
    · simp

/-- The Telegram block sets its flag exactly when a message it sent was
answered with an ok response. -/
theorem notify_sent_iff (env : ApiEnv) (body : OrderBody) (orderId : Option Int) (saved : Bool) :
    (notify env body orderId saved).1 = true ↔
      Delivered env (notify env body orderId saved).2 := by
  unfold notify Delivered
  split
  · split
    · simp
    · split
      · simp
      · rename_i text _
        cases hf : env.fetch ("https://api.telegram.org/bot" ++ showOpt env.botToken ++
            "/sendMessage") (showOpt env.chatId) text
        · simp only [hf, List.mem_singleton, ApiEffect.sendMessage.injEq, true_iff]
          exact ⟨_, _, _, ⟨rfl, rfl, rfl⟩, hf⟩
        · simp only [hf, Bool.false_eq_true, List.mem_singleton, ApiEffect.sendMessage.injEq,
            false_iff, not_exists, not_and]
          rintro url chat t ⟨rfl, rfl, rfl⟩
          simp [hf]
        · simp only [hf, Bool.false_eq_true, List.mem_singleton, ApiEffect.sendMessage.injEq,
            false_iff, not_exists, not_and]
          rintro url chat t ⟨rfl, rfl, rfl⟩
          simp [hf]
  · simp

theorem delivered_append_persist (env : ApiEnv) (body : OrderBody) (t : List ApiEffect) :
    Delivered env ((persist env body).2.2 ++ t) ↔ Delivered env t := by
  constructor
  · rintro ⟨url, chat, text, hmem, hok⟩
    rcases List.mem_append.1 hmem with h | h
    · exact absurd (persist_trace env body _ h) (by simp)
    · exact ⟨url, chat, text, h, hok⟩
  · rintro ⟨url, chat, text, hmem, hok⟩
    exact ⟨url, chat, text, List.mem_append_right _ hmem, hok⟩

/-- The Telegram block records nothing but sends. -/
theorem notify_trace (env : ApiEnv) (body : OrderBody) (orderId : Option Int) (saved : Bool) :
    ∀ e ∈ (notify env body orderId saved).2, ∃ url chat text, e = ApiEffect.sendMessage url chat text := by
  intro e he
  unfold notify at he
  split at he
  · split at he
    · simp at he
    · split at he
      · simp at he
      · rename_i text _
        cases hf : env.fetch ("https://api.telegram.org/bot" ++ showOpt env.botToken ++
            "/sendMessage") (showOpt env.chatId) text <;>
          simp only [hf, List.mem_singleton] at he <;> exact ⟨_, _, _, he⟩
  · simp at he

theorem respond_failed (env : ApiEnv) (orderId : Option Int) :
    respond env orderId false false =
      { status := 500
        body := .failed "Ошибка: заказ не отправлен ни в Telegram, ни в БД"
          (truthyStr env.botToken && truthyStr env.chatId) env.supabase.isSome } := by
  simp [respond]

theorem respond_accepted (env : ApiEnv) (orderId : Option Int) (saved sent : Bool)
    (h : (saved || sent) = true) :
    respond env orderId saved sent =
      { status := 200, body := .accepted true "Заказ принят" (orNull orderId) saved sent } := by
  simp only [respond, h, if_true]

theorem orNull_some {n : Int} (h : n ≠ 0) : orNull (some n) = some n := by
  simp [orNull, truthyNum, h]

/-! ## Lemmas on number printing and `parseInt` -/

theorem digitChar_facts (k : Nat) (hk : k < 10) :
    isStrWhiteSpace (Nat.digitChar k) = false ∧ isRadixDigit 10 (Nat.digitChar k) = true ∧
    digitValue (Nat.digitChar k) = some k ∧
    Nat.digitChar k ≠ '_' ∧ Nat.digitChar k ≠ '-' ∧ Nat.digitChar k ≠ '+' ∧
    Nat.digitChar k ≠ 'x' ∧ Nat.digitChar k ≠ 'X' := by
  interval_cases k <;> decide

/-- The digits that `Nat.toDigitsCore` puts in front of its accumulator. -/
theorem toDigitsCore_spec (fuel : Nat) : ∀ (n : Nat) (ds : List Char), n < fuel →
    ∃ P : List Char, Nat.toDigitsCore 10 fuel n ds = P ++ ds ∧ P ≠ [] ∧
      (∀ c ∈ P, ∃ k, k < 10 ∧ c = Nat.digitChar k) ∧
      ∀ acc : Nat, P.foldl (fun a c => a * 10 + (digitValue c).getD 0) acc
        = acc * 10 ^ P.length + n := by
  induction fuel with
  | zero => intro n ds h; exact absurd h (Nat.not_lt_zero n)
  | succ fuel ih =>
    intro n ds h
    have hd := digitChar_facts (n % 10) (Nat.mod_lt n (by decide))
    by_cases h0 : n / 10 = 0
    · refine ⟨[Nat.digitChar (n % 10)], ?_, by simp, ?_, ?_⟩
      · simp [Nat.toDigitsCore, h0]
      · intro c hc
        exact ⟨n % 10, Nat.mod_lt n (by decide), by simpa using hc⟩
      · intro acc
        have hn : n % 10 = n := Nat.mod_eq_of_lt (by omega)
        have hv := hd.2.2.1
        rw [hn] at hv
        simp only [List.foldl_cons, List.foldl_nil, hv, Option.getD_some,
          List.length_singleton, pow_one, hn]
    · have hlt : n / 10 < fuel := by omega
      obtain ⟨P, hP, -, hdig, hval⟩ := ih (n / 10) (Nat.digitChar (n % 10) :: ds) hlt
      refine ⟨P ++ [Nat.digitChar (n % 10)], ?_, by simp, ?_, ?_⟩
      · simp [Nat.toDigitsCore, h0, hP]
      · intro c hc
        rcases List.mem_append.1 hc with hc | hc
        · exact hdig c hc
        · exact ⟨n % 10, Nat.mod_lt n (by decide), by simpa using hc⟩
      · intro acc
        simp only [List.foldl_append, hval, List.foldl_cons, List.foldl_nil, hd.2.2.1,
          Option.getD_some, List.length_append, List.length_singleton, pow_succ]
        have := Nat.div_add_mod n 10
        nlinarith [this]

/-- The decimal digits of a natural number: not empty, all digits, and with
the number as their value. -/
theorem toDigits_spec (n : Nat) :
    Nat.toDigits 10 n ≠ [] ∧ (∀ c ∈ Nat.toDigits 10 n, ∃ k, k < 10 ∧ c = Nat.digitChar k) ∧
    digitsValue 10 (Nat.toDigits 10 n) = n := by
  obtain ⟨P, hP, hne, hdig, hval⟩ := toDigitsCore_spec (n + 1) n [] (Nat.lt_succ_self n)
  simp only [List.append_nil] at hP
  refine ⟨?_, ?_, ?_⟩
  · simpa [Nat.toDigits, hP] using hne
  · simpa [Nat.toDigits, hP] using hdig
  · simp [Nat.toDigits, hP, digitsValue, hval 0]

theorem takeWhile_digits (P : List Char) (hdig : ∀ c ∈ P, ∃ k, k < 10 ∧ c = Nat.digitChar k) :
    P.takeWhile (isRadixDigit 10) = P := by
  induction P with
  | nil => rfl
  | cons c cs ih =>
    obtain ⟨k, hk, rfl⟩ := hdig c (List.mem_cons_self _ _)
    have hcs := ih (fun c hc => hdig c (List.mem_cons_of_mem _ hc))
    simp [List.takeWhile, (digitChar_facts k hk).2.1, hcs]

theorem splitSign_digit (k : Nat) (hk : k < 10) (cs : List Char) :
    splitSign (Nat.digitChar k :: cs) = (false, Nat.digitChar k :: cs) := by
  interval_cases k <;> rfl

theorem splitRadix_digits (P : List Char) (hdig : ∀ c ∈ P, ∃ k, k < 10 ∧ c = Nat.digitChar k) :
    splitRadix P = (10, P) := by
  match P, hdig with
  | [], _ => rfl
  | [c], hdig =>
    obtain ⟨k, hk, rfl⟩ := hdig c (List.mem_cons_self _ _)
    interval_cases k <;> rfl
  | c :: d :: cs, hdig =>
    obtain ⟨k, hk, rfl⟩ := hdig c (List.mem_cons_self _ _)
    obtain ⟨j, hj, rfl⟩ := hdig d (List.mem_cons_of_mem _ (List.mem_cons_self _ _))
    interval_cases k <;> interval_cases j <;> rfl

/-- On a non-empty sequence of decimal digits, with or without a minus sign,
`parseInt` returns the number the digits denote. -/
theorem parseIntChars_digits (P : List Char) (hne : P ≠ [])
    (hdig : ∀ c ∈ P, ∃ k, k < 10 ∧ c = Nat.digitChar k) :
    parseIntChars P = .int (digitsValue 10 P) ∧
    parseIntChars ('-' :: P) = .int (-(digitsValue 10 P : Int)) := by
  match P, hne, hdig with
  | c :: cs, _, hdig =>
    obtain ⟨k, hk, rfl⟩ := hdig c (List.mem_cons_self _ _)
    have hw := (digitChar_facts k hk).1
    have hs := splitSign_digit k hk cs
    have hr := splitRadix_digits _ hdig
    have ht := takeWhile_digits _ hdig
    constructor
    · simp only [parseIntChars, List.dropWhile, hw, hs, hr, ht]
      simp
    · have hm : isStrWhiteSpace '-' = false := by decide
      simp only [parseIntChars, List.dropWhile, hm, splitSign, hr, ht]
      simp

theorem toString_int_data (n : Int) :
    (0 ≤ n → (toString n).data = Nat.toDigits 10 n.toNat) ∧
    (n < 0 → (toString n).data = '-' :: Nat.toDigits 10 (-n).toNat) := by
  cases n with
  | ofNat m =>
    refine ⟨fun _ => rfl, fun h => ?_⟩
    exact absurd h (by simp)
  | negSucc m =>
    refine ⟨fun h => ?_, fun _ => rfl⟩
    exact absurd h (by simp [Int.negSucc_lt_zero])

/-- Parsing the decimal form of an integer returns the integer. -/
theorem parseInt_toString (n : Int) : parseInt (some (toString n)) = .int n := by
  show parseIntChars (toString n).data = .int n
  by_cases h : 0 ≤ n
  · obtain ⟨hne, hdig, hval⟩ := toDigits_spec n.toNat
    rw [(toString_int_data n).1 h, (parseIntChars_digits _ hne hdig).1, hval]
    simp [Int.toNat_of_nonneg h]
  · have hlt : n < 0 := not_le.1 h
    obtain ⟨hne, hdig, hval⟩ := toDigits_spec (-n).toNat
    rw [(toString_int_data n).2 hlt, (parseIntChars_digits _ hne hdig).2, hval]
    have : ((-n).toNat : Int) = -n := Int.toNat_of_nonneg (by omega)
    simp [this]

/-- The decimal form of an integer contains no underscore. -/
theorem toString_int_no_underscore (n : Int) : '_' ∉ (toString n).data := by
  by_cases h : 0 ≤ n
  · obtain ⟨-, hdig, -⟩ := toDigits_spec n.toNat
    rw [(toString_int_data n).1 h]
    intro hc
    obtain ⟨k, hk, hk2⟩ := hdig _ hc
    exact (digitChar_facts k hk).2.2.2.1 hk2.symm
  · obtain ⟨-, hdig, -⟩ := toDigits_spec (-n).toNat
    rw [(toString_int_data n).2 (not_le.1 h)]
    intro hc
    rcases List.mem_cons.1 hc with hc | hc
    · exact absurd hc (by decide)
    · obtain ⟨k, hk, hk2⟩ := hdig _ hc
      exact (digitChar_facts k hk).2.2.2.1 hk2.symm

theorem splitChars_no_sep (sep : Char) (a : List Char) (h : sep ∉ a) :
    splitChars sep a = [a] := by
  induction a with
  | nil => rfl
  | cons c cs ih =>
    have hc : c ≠ sep := fun e => h (e ▸ List.mem_cons_self _ _)
    simp [splitChars, hc, ih (fun hm => h (List.mem_cons_of_mem _ hm))]

theorem splitChars_append (sep : Char) (a rest : List Char) (h : sep ∉ a) :
    splitChars sep (a ++ sep :: rest) = a :: splitChars sep rest := by
  induction a with
  | nil => simp [splitChars]
  | cons c cs ih =>
    have hc : c ≠ sep := fun e => h (e ▸ List.mem_cons_self _ _)
    simp [splitChars, hc, ih (fun hm => h (List.mem_cons_of_mem _ hm))]

/-- The token `status_<id>_<status>` splits into its three parts when the
status contains no underscore. -/
theorem statusParts_token (id : Int) (status : String) (h : '_' ∉ status.data) :
    statusParts ("status_" ++ toString id ++ "_" ++ status) = (some (toString id), some status) := by
  have h1 : ("status_" ++ toString id ++ "_" ++ status).data
      = ['s', 't', 'a', 't', 'u', 's'] ++ '_' :: ((toString id).data ++ '_' :: status.data) := by
    simp [String.data_append]
  have h2 : splitUnderscore ("status_" ++ toString id ++ "_" ++ status)
      = ["status", toString id, status] := by
    unfold splitUnderscore
    rw [h1, splitChars_append _ _ _ (by decide),
      splitChars_append _ _ _ (toString_int_no_underscore id), splitChars_no_sep _ _ h]
    rfl
  simp [statusParts, h2]

theorem startsWith_append (p t : String) : startsWith (p ++ t) p = true := by
  simp [startsWith, String.data_append]

theorem removeFirst_head (p t : List Char) (hp : p ≠ []) : removeFirst p (p ++ t) = t := by
  match p, hp with
  | c :: cs, _ =>
    simp [removeFirst]

theorem replaceWithEmpty_head (p t : String) (hp : p.data ≠ []) :
    replaceWithEmpty (p ++ t) p = t := by
  simp [replaceWithEmpty, String.data_append, removeFirst_head _ _ hp]

/-! ## Lemmas on the mirror -/

theorem find_cons_pos {α : Type} (p : α → Bool) (a : α) (l : List α) (h : p a = true) :
    (a :: l).find? p = some a := by
  simp [List.find?, h]

theorem find_cons_neg {α : Type} (p : α → Bool) (a : α) (l : List α) (h : p a = false) :
    (a :: l).find? p = l.find? p := by
  simp [List.find?, h]

theorem find_insert_self {α : Type} (p : α → Bool) (l1 l2 : List α) (x : α)
    (h1 : ∀ e ∈ l1, p e = false) (hx : p x = true) :
    (l1 ++ x :: l2).find? p = some x := by
  induction l1 with
  | nil => exact find_cons_pos p x l2 hx
  | cons a as ih =>
    rw [List.cons_append, find_cons_neg p a _ (h1 a (List.mem_cons_self _ _))]
    exact ih (fun e he => h1 e (List.mem_cons_of_mem _ he))

theorem find_insert_other {α : Type} (p : α → Bool) (l1 l2 : List α) (x : α)
    (hx : p x = false) :
    (l1 ++ x :: l2).find? p = (l1 ++ l2).find? p := by
  induction l1 with
  | nil => exact find_cons_neg p x l2 hx
  | cons a as ih =>
    cases ha : p a
    · rw [List.cons_append, List.cons_append, find_cons_neg p a _ ha, find_cons_neg p a _ ha, ih]
    · rw [List.cons_append, List.cons_append, find_cons_pos p a _ ha, find_cons_pos p a _ ha]

theorem mem_of_mem_takeWhile {α : Type} (p : α → Bool) (l : List α) (a : α)
    (h : a ∈ l.takeWhile p) : a ∈ l := by
  have h2 : a ∈ l.takeWhile p ++ l.dropWhile p := List.mem_append_left _ h
  rwa [List.takeWhile_append_dropWhile] at h2

theorem hasKey_self (k : JSNum) (v : Order) : hasKey k (k, v) = true := by
  simp [hasKey]

theorem hasKey_other {k k2 : JSNum} (v : Order) (hk : k2 ≠ k) : hasKey k2 (k, v) = false := by
  simpa [hasKey] using fun e : k = k2 => hk e.symm

theorem hasKey_of_hasKey {k k2 : JSNum} {e : JSNum × Order} (hk : k2 ≠ k)
    (he : hasKey k e = true) : hasKey k2 e = false := by
  have h1 : e.1 = k := by simpa [hasKey] using he
  simpa [hasKey] using fun e2 : e.1 = k2 => hk (e2.symm.trans h1)

theorem find_replace_self (m : OrderCache) (k : JSNum) (v : Order)
    (h : m.any (hasKey k) = true) :
    (m.map (fun e => if hasKey k e then (k, v) else e)).find? (hasKey k) = some (k, v) := by
  induction m with
  | nil => simp at h
  | cons e es ih =>
    cases he : hasKey k e
    · have h2 : es.any (hasKey k) = true := by simpa [List.any_cons, he] using h
      rw [List.map_cons, he, if_neg Bool.false_ne_true, find_cons_neg (hasKey k) e _ he]
      exact ih h2
    · rw [List.map_cons, he, if_pos rfl]
      exact find_cons_pos (hasKey k) _ _ (hasKey_self k v)

theorem find_replace_other (m : OrderCache) (k k2 : JSNum) (v : Order) (hk : k2 ≠ k) :
    ((m.map (fun e => if hasKey k e then (k, v) else e)).find? (hasKey k2)).map (·.2)
      = (m.find? (hasKey k2)).map (·.2) := by
  induction m with
  | nil => rfl
  | cons e es ih =>
    cases he : hasKey k e
    · rw [List.map_cons, he, if_neg Bool.false_ne_true]
      cases he2 : hasKey k2 e
      · rw [find_cons_neg (hasKey k2) e _ he2, find_cons_neg (hasKey k2) e _ he2]
        exact ih
      · rw [find_cons_pos (hasKey k2) e _ he2, find_cons_pos (hasKey k2) e _ he2]
    · rw [List.map_cons, he, if_pos rfl, find_cons_neg (hasKey k2) _ _ (hasKey_other v hk),
        find_cons_neg (hasKey k2) e _ (hasKey_of_hasKey hk he)]
      exact ih

/-- After `orderCache[k] = v`, the entry under `k` is `v`. -/
theorem cacheGet_cacheSet_self (m : OrderCache) (k : JSNum) (v : Order) :
    cacheGet (cacheSet m k v) k = some v := by
  unfold cacheSet
  split
  · rename_i h
    unfold cacheGet
    rw [find_replace_self m k v h]
    rfl
  · rename_i h
    have hno : ∀ e ∈ m, hasKey k e = false := by
      intro e he
      by_contra hc
      exact h (List.any_eq_true.2 ⟨e, he, by simpa using hc⟩)
    split
    · unfold cacheGet
      rw [find_insert_self (hasKey k) _ _ _
        (fun e he => hno e (mem_of_mem_takeWhile _ _ _ he)) (hasKey_self k v)]
      rfl
    · unfold cacheGet
      rw [find_insert_self (hasKey k) _ _ _ hno (hasKey_self k v)]
      rfl

/-- The assignment `orderCache[k] = v` leaves the entries under other keys as
they were. -/
theorem cacheGet_cacheSet_other (m : OrderCache) (k k2 : JSNum) (v : Order) (hk : k2 ≠ k) :
    cacheGet (cacheSet m k v) k2 = cacheGet m k2 := by
  unfold cacheSet
  split
  · exact find_replace_other m k k2 v hk
  · split
    · unfold cacheGet
      rw [find_insert_other (hasKey k2) _ _ _ (hasKey_other v hk),
        List.takeWhile_append_dropWhile]
    · unfold cacheGet
      rw [find_insert_other (hasKey k2) _ _ _ (hasKey_other v hk), List.append_nil]

/-- After `delete orderCache[k]` there is no entry under `k`. -/
theorem cacheGet_cacheDelete_self (m : OrderCache) (k : JSNum) :
    cacheGet (cacheDelete m k) k = none := by
  unfold cacheGet cacheDelete
  induction m with
  | nil => rfl
  | cons e es ih =>
    cases he : hasKey k e
    · rw [List.filter_cons_of_pos (by simp [he]), find_cons_neg (hasKey k) e _ he]
      exact ih
    · rw [List.filter_cons_of_neg (by simp [he])]
      exact ih

/-- The statement `delete orderCache[k]` leaves the entries under other keys
as they were. -/
theorem cacheGet_cacheDelete_other (m : OrderCache) (k k2 : JSNum) (hk : k2 ≠ k) :
    cacheGet (cacheDelete m k) k2 = cacheGet m k2 := by
  unfold cacheGet cacheDelete
  induction m with
  | nil => rfl
  | cons e es ih =>
    cases he : hasKey k e
    · rw [List.filter_cons_of_pos (by simp [he])]
      cases he2 : hasKey k2 e
      · rw [find_cons_neg (hasKey k2) e _ he2, find_cons_neg (hasKey k2) e _ he2]
        exact ih
      · rw [find_cons_pos (hasKey k2) e _ he2, find_cons_pos (hasKey k2) e _ he2]
    · rw [List.filter_cons_of_neg (by simp [he]),
        find_cons_neg (hasKey k2) e _ (hasKey_of_hasKey hk he)]
      exact ih

/-! ## Lemmas on the bot's handlers -/

theorem mapM_detailItem_ok (fmt : Int → String) (items : List Item) :
    ∀ n : Nat, (items.all (fun item => item.selectedColor.isSome && item.price.isSome)) = true →
      ∃ rows, (items.enumFrom n).mapM (fun p => detailItem fmt p.1 p.2) = Except.ok rows := by
  induction items with
  | nil => intro n _; exact ⟨[], rfl⟩
  | cons item rest ih =>
    intro n h
    simp only [List.all_cons, Bool.and_eq_true] at h
    obtain ⟨⟨hc, hp⟩, hrest⟩ := h
    obtain ⟨rows, hrows⟩ := ih (n + 1) hrest
    obtain ⟨color, hcolor⟩ := Option.isSome_iff_exists.1 hc
    obtain ⟨price, hprice⟩ := Option.isSome_iff_exists.1 hp
    rw [List.enumFrom_cons, List.mapM_cons, hrows]
    simp only [detailItem, hcolor, hprice]
    exact ⟨_, rfl⟩

/-- The detail text of a row whose items have the shape of the data model is
rendered without an exception. -/
theorem detailText_ok (env : BotEnv) (o : Order) (h : wellFormedItems o = true) :
    ∃ text, detailText env o = .ok text := by
  obtain ⟨rows, hrows⟩ := mapM_detailItem_ok env.toLocaleString (o.items.getD []) 0 h
  unfold detailText
  rw [List.enum, hrows]
  exact ⟨_, rfl⟩

/-- The detail view makes no store call. -/
theorem showOrderDetail_no_store (env : BotEnv) (m : OrderCache) (chatId : Int) (k : JSNum) :
    (showOrderDetail env m chatId k).filter BotEffect.isStoreCall = [] := by
  unfold showOrderDetail
  split
  · rfl
  · split <;> rfl

theorem status_token_dispatch (a : String) :
    startsWith ("status_" ++ a) "filter_" = false ∧ startsWith ("status_" ++ a) "order_" = false ∧
    startsWith ("status_" ++ a) "status_" = true := by
  simp [startsWith, String.data_append]
  exact ⟨rfl, rfl⟩

theorem delete_token_dispatch (a : String) :
    startsWith ("delete_" ++ a) "filter_" = false ∧ startsWith ("delete_" ++ a) "order_" = false ∧
    startsWith ("delete_" ++ a) "status_" = false ∧ startsWith ("delete_" ++ a) "delete_" = true := by
  simp [startsWith, String.data_append]
  exact ⟨rfl, rfl, rfl⟩

theorem order_token_dispatch (a : String) :
    startsWith ("order_" ++ a) "filter_" = false ∧ startsWith ("order_" ++ a) "order_" = true := by
  simp [startsWith, String.data_append]
  rfl

/-- A set-status press by the administrator runs the `status_` branch on the
id and the status the token was built from. -/
theorem setStatusPress_eq (env : BotEnv) (m : OrderCache) (qid : String) (chatId mid id : Int)
    (status : String) (hadmin : toString chatId = env.adminId) (hstatus : '_' ∉ status.data) :
    handleEvent env m (setStatusPress qid chatId mid id status) =
      if (updateOrderStatus env m (.int id) (some status)).1 = some true then
        ((updateOrderStatus env m (.int id) (some status)).2.1,
         (updateOrderStatus env m (.int id) (some status)).2.2 ++
          [.answerCallbackQuery qid
            (some ("✅ Статус изменён на " ++ showOpt (statusText status))) true] ++
          showOrderDetail env (updateOrderStatus env m (.int id) (some status)).2.1 chatId
            (.int id))
      else
        ((updateOrderStatus env m (.int id) (some status)).2.1,
         (updateOrderStatus env m (.int id) (some status)).2.2 ++
          [.answerCallbackQuery qid (some "❌ Ошибка обновления") true]) := by
  have hd := status_token_dispatch (toString id ++ "_" ++ status)
  have hp := statusParts_token id status hstatus
  have e : "status_" ++ toString id ++ "_" ++ status = "status_" ++ (toString id ++ "_" ++ status) := by
    simp [String.append_assoc]
  simp only [handleEvent, setStatusPress, onCallbackQuery, hadmin, ne_eq, not_true_eq_false,
    if_false, onStatusButton, hp, parseInt_toString, showOpt]
  rw [e] 
  simp only [hd, Bool.false_eq_true, if_false, if_true]

/-- A delete press by the administrator runs the `delete_` branch on the id
the token was built from. -/
theorem deletePress_eq (env : BotEnv) (m : OrderCache) (qid : String) (chatId mid id : Int)
    (hadmin : toString chatId = env.adminId) :
    handleEvent env m (deletePress qid chatId mid id) =
      if (deleteOrder env m (.int id)).1 = some true then
        ((deleteOrder env m (.int id)).2.1,
         (deleteOrder env m (.int id)).2.2 ++
          [.answerCallbackQuery qid (some "✅ Заказ удалён") true, .deleteMessage chatId mid] ++
          showOrdersList env (deleteOrder env m (.int id)).2.1 chatId "all")
      else
        ((deleteOrder env m (.int id)).2.1,
         (deleteOrder env m (.int id)).2.2 ++
          [.answerCallbackQuery qid (some "❌ Ошибка удаления") true]) := by
  have hd := delete_token_dispatch (toString id)
  have hr : replaceWithEmpty ("delete_" ++ toString id) "delete_" = toString id :=
    replaceWithEmpty_head _ _ (by decide)
  simp only [handleEvent, deletePress, onCallbackQuery, hadmin, ne_eq, not_true_eq_false,
    if_false, onDeleteButton, hd, hr, parseInt_toString, Bool.false_eq_true, if_true]

/-- An open press by the administrator shows the detail of the id the token
was built from. -/
theorem openPress_eq (env : BotEnv) (m : OrderCache) (qid : String) (chatId mid id : Int)
    (hadmin : toString chatId = env.adminId) :
    handleEvent env m (openPress qid chatId mid id) =
      (m, [.deleteMessage chatId mid] ++ showOrderDetail env m chatId (.int id) ++
        [.answerCallbackQuery qid none false]) := by
  have hd := order_token_dispatch (toString id)
  have hr : replaceWithEmpty ("order_" ++ toString id) "order_" = toString id :=
    replaceWithEmpty_head _ _ (by decide)
  simp only [handleEvent, openPress, onCallbackQuery, hadmin, ne_eq, not_true_eq_false,
    if_false, hd, hr, parseInt_toString, Bool.false_eq_true, if_true]

/-! ## Theorems on the order submission handler -/

/-- C1: a POST submission in which the customer name, phone or address is
missing or empty, or the items are missing or empty, or the total is a number
not greater than zero, is answered with status 400 and an error message, and
the handler calls neither the store nor the chat channel. -/
theorem handler_rejects_invalid (env : ApiEnv) (body : OrderBody)
    (h : MissingOrEmpty (custField body.customer (·.name)) ∨
      MissingOrEmpty (custField body.customer (·.phone)) ∨
      MissingOrEmpty (custField body.customer (·.address)) ∨
      NoItems body.items ∨ ∃ t, body.total = some t ∧ t ≤ 0) :
    (handler env (post body)).1.status = 400 ∧
    (∃ msg, (handler env (post body)).1.body = .error msg ∧ msg ≠ "") ∧
    (handler env (post body)).2 = [] := by
  by_cases hn : truthyStr (custField body.customer (·.name)) = true
  swap
  · simp [handler, post, hn]
  by_cases hp : truthyStr (custField body.customer (·.phone)) = true
  swap
  · simp [handler, post, hp]
  by_cases ha : truthyStr (custField body.customer (·.address)) = true
  swap
  · simp [handler, post, ha]
  by_cases hi : itemsMissingOrEmpty body.items = true
  · simp [handler, post, hn, hp, ha, hi]
  by_cases ht : totalLeZero body.total = true
  · simp [handler, post, hn, hp, ha, hi, ht]
  exfalso
  rcases h with h | h | h | h | ⟨t, h, hle⟩
  · rw [(truthyStr_false_iff _).2 h] at hn; exact Bool.false_ne_true hn
  · rw [(truthyStr_false_iff _).2 h] at hp; exact Bool.false_ne_true hp
  · rw [(truthyStr_false_iff _).2 h] at ha; exact Bool.false_ne_true ha
  · exact hi ((itemsMissingOrEmpty_iff _).2 h)
  · exact ht (by simp [h, totalLeZero, hle])

/-- Witness of C1: the sample order with a total of zero. -/
theorem handler_rejects_invalid_witness :
    (handler (healthyEnv 42) (post { sampleBody with total := some 0 })).1.status = 400 ∧
    (∃ msg, (handler (healthyEnv 42) (post { sampleBody with total := some 0 })).1.body
        = .error msg ∧ msg ≠ "") ∧
    (handler (healthyEnv 42) (post { sampleBody with total := some 0 })).2 = [] :=
  handler_rejects_invalid (healthyEnv 42) { sampleBody with total := some 0 }
    (Or.inr (Or.inr (Or.inr (Or.inr ⟨0, rfl, le_refl 0⟩))))

/-- C2, counterexample: the store generates the id 0 for the sample order and
both sinks succeed, yet the response carries a null `orderId`. -/
theorem handler_zero_id_both_sinks :
    ValidSubmission sampleBody ∧ Stored (healthyEnv 0) sampleBody (sampleRow 0) ∧
    Delivered (healthyEnv 0) (handler (healthyEnv 0) (post sampleBody)).2 ∧
    (handler (healthyEnv 0) (post sampleBody)).1 =
      { status := 200, body := .accepted true "Заказ принят" none true true } :=
  ⟨by decide, ⟨_, rfl, rfl⟩, ⟨_, _, _, List.Mem.tail _ (List.Mem.head _), rfl⟩, by decide⟩

/-- C2, amended: for every valid submission for which the store insert
succeeds with a generated id other than zero and the chat delivery succeeds,
the handler responds 200 with success, both flags true and `orderId` equal to
the generated id. -/
theorem handler_both_sinks_succeed (env : ApiEnv) (body : OrderBody) (row : Order)
    (hv : ValidSubmission body) (hdb : Stored env body row) (hid : row.id ≠ 0)
    (htg : Delivered env (handler env (post body)).2) :
    (handler env (post body)).1 =
      { status := 200, body := .accepted true "Заказ принят" (some row.id) true true } := by
  rw [handler_of_valid env body hv] at htg ⊢
  have hsent := (notify_sent_iff env body _ _).2 ((delivered_append_persist env body _).1 htg)
  simp only [persist_of_stored hdb] at hsent ⊢
  rw [hsent, respond_accepted env _ true true rfl, orNull_some hid]

/-- Witness of C2 (amended): two items totalling 15000, both sinks healthy,
generated id 42. -/
theorem handler_both_sinks_succeed_witness :
    (handler (healthyEnv 42) (post sampleBody)).1 =
      { status := 200, body := .accepted true "Заказ принят" (some 42) true true } :=
  handler_both_sinks_succeed (healthyEnv 42) sampleBody (sampleRow 42) (by decide)
    ⟨_, rfl, rfl⟩ (by decide) ⟨_, _, _, List.Mem.tail _ (List.Mem.head _), rfl⟩

/-- C3: for every valid submission for which neither the store insert nor the
chat delivery succeeds, the handler responds with status 500; the body is the
failure record, which has no success flag; its `telegramConfigured` is true
exactly when the bot token and the chat id are both set, and its
`databaseConfigured` is true exactly when a store client is available. -/
theorem handler_both_sinks_fail (env : ApiEnv) (body : OrderBody)
    (hv : ValidSubmission body) (hdb : ∀ row, ¬ Stored env body row)
    (htg : ¬ Delivered env (handler env (post body)).2) :
    (handler env (post body)).1.status = 500 ∧
    (∀ success message orderId saved sent,
      (handler env (post body)).1.body ≠ .accepted success message orderId saved sent) ∧
    ∃ msg tg db, (handler env (post body)).1.body = .failed msg tg db ∧
      (tg = true ↔ IsSet env.botToken ∧ IsSet env.chatId) ∧
      (db = true ↔ ∃ insert, env.supabase = some insert) := by
  rw [handler_of_valid env body hv] at htg ⊢
  have hsent : (notify env body (persist env body).1 (persist env body).2.1).1 = false := by
    rw [← Bool.not_eq_true, notify_sent_iff]
    exact fun h => htg ((delivered_append_persist env body _).2 h)
  obtain ⟨-, hsaved⟩ := persist_of_not_stored hdb
  simp only [hsaved] at hsent ⊢
  simp only [hsent, respond_failed]
  refine ⟨trivial, fun _ _ _ _ _ h => ResponseBody.noConfusion h, _, _, _, rfl, ?_, ?_⟩
  · simp [Bool.and_eq_true, truthyStr_iff]
  · simp [Option.isSome_iff_exists]

/-- Witness of C3: the store answers with an error and the Telegram API with
a failure response. -/
theorem handler_both_sinks_fail_witness :
    (handler (sampleEnv (some (fun _ => .error "timeout")) (some "123456:ABC")
      (some "987654321") (.notOk "Bad Gateway")) (post sampleBody)).1.status = 500 :=
  (handler_both_sinks_fail
    (sampleEnv (some (fun _ => .error "timeout")) (some "123456:ABC") (some "987654321")
      (.notOk "Bad Gateway"))
    sampleBody (by decide)
    (by rintro row ⟨insert, h1, h2⟩; cases h1; cases h2)
    (by rintro ⟨url, chat, text, -, hok⟩; cases hok)).1

theorem mapM_formatItem_ok (fmt : Int → String) (items : List Item) :
    ∀ n : Nat, (items.all (fun item => item.selectedColor.isSome && item.price.isSome)) = true →
      ∃ rows, (items.enumFrom n).mapM (fun p => formatItem fmt p.1 p.2) = Except.ok rows := by
  induction items with
  | nil => intro n _; exact ⟨[], rfl⟩
  | cons item rest ih =>
    intro n h
    simp only [List.all_cons, Bool.and_eq_true] at h
    obtain ⟨⟨hc, hp⟩, hrest⟩ := h
    obtain ⟨rows, hrows⟩ := ih (n + 1) hrest
    obtain ⟨color, hcolor⟩ := Option.isSome_iff_exists.1 hc
    obtain ⟨price, hprice⟩ := Option.isSome_iff_exists.1 hp
    rw [List.enumFrom_cons, List.mapM_cons, hrows]
    simp only [formatItem, hcolor, hprice]
    exact ⟨_, rfl⟩

/-- The item list of a request whose items all have a colour and a price is
formatted without an exception. -/
theorem formatItems_ok (fmt : Int → String) (items : Option (List Item))
    (h : itemsFormattable items = true) :
    ∃ itemsList, formatItems fmt (items.getD []) = .ok itemsList := by
  obtain ⟨rows, hrows⟩ := mapM_formatItem_ok fmt (items.getD []) 0 h
  unfold formatItems
  rw [List.enum, hrows]
  exact ⟨_, rfl⟩

/-- The store block, when no insert returned a row: no id, nothing saved, and
one insert attempt exactly when a store client is configured. -/
theorem persist_not_stored_eq {env : ApiEnv} {body : OrderBody}
    (h : ∀ row, ¬ Stored env body row) :
    persist env body =
      (none, false, if env.supabase.isSome then [.insert (newOrder env body)] else []) := by
  unfold persist
  split
  · rename_i hs
    simp [hs]
  · rename_i insert hs
    split
    · rename_i row hr
      exact absurd ⟨insert, hs, hr⟩ (h row)
    · simp [hs]
    · simp [hs]

/-- C4: for every valid submission for which the store insert does not
succeed (the store is unconfigured, answers with an error, or throws), when
the chat channel is configured, the items can be formatted and the Telegram
API answers the message with an ok response, the handler still sends the
notification, after its one insert attempt if a store client exists, and
responds 200 with success, `savedToDatabase` false, `sentToTelegram` true and
a null `orderId`. -/
theorem handler_store_down_chat_ok (env : ApiEnv) (body : OrderBody) (token chat : String)
    (hv : ValidSubmission body) (hdb : ∀ row, ¬ Stored env body row)
    (htoken : env.botToken = some token) (htoken2 : token ≠ "")
    (hchat : env.chatId = some chat) (hchat2 : chat ≠ "")
    (hitems : itemsFormattable body.items = true)
    (hok : ∀ text,
      env.fetch ("https://api.telegram.org/bot" ++ token ++ "/sendMessage") chat text = .ok) :
    (handler env (post body)).1 =
      { status := 200, body := .accepted true "Заказ принят" none false true } ∧
    ∃ text, (handler env (post body)).2 =
      (if env.supabase.isSome then [ApiEffect.insert (newOrder env body)] else []) ++
        [.sendMessage ("https://api.telegram.org/bot" ++ token ++ "/sendMessage") chat text] := by
  obtain ⟨itemsList, hfmt⟩ := formatItems_ok env.toLocaleString body.items hitems
  obtain ⟨t, ht⟩ : ∃ t, body.total = some t := by
    cases hb : body.total with
    | none => exact absurd hv.2.2.2.2 (by simp [hb, PositiveTotal])
    | some t => exact ⟨t, rfl⟩
  obtain ⟨text, htext⟩ : ∃ text,
      orderText env body.customer itemsList body.total none false = .ok text := by
    rw [ht]
    exact ⟨_, rfl⟩
  have hnotify : notify env body none false =
      (true, [.sendMessage ("https://api.telegram.org/bot" ++ token ++ "/sendMessage") chat
        text]) := by
    simp only [notify, htoken, hchat, truthyStr, htoken2, hchat2, ne_eq, not_false_eq_true,
      decide_True, Bool.and_self, if_true, hfmt, htext, showOpt, hok]
  rw [handler_of_valid env body hv, persist_not_stored_eq hdb]
  simp only [hnotify]
  exact ⟨by rw [respond_accepted env none false true rfl]; rfl, text, rfl⟩

/-- Witness of C4: a store client that answers the insert with an error, and
a healthy chat channel; the insert is attempted, the message is sent. -/
theorem handler_store_down_chat_ok_witness :
    (handler (sampleEnv (some (fun _ => .error "timeout")) (some "123456:ABC")
      (some "987654321") .ok) (post sampleBody)).1 =
      { status := 200, body := .accepted true "Заказ принят" none false true } ∧
    ∃ text, (handler (sampleEnv (some (fun _ => .error "timeout")) (some "123456:ABC")
      (some "987654321") .ok) (post sampleBody)).2 =
        [.insert (newOrder (sampleEnv (some (fun _ => .error "timeout")) (some "123456:ABC")
            (some "987654321") .ok) sampleBody),
         .sendMessage "https://api.telegram.org/bot123456:ABC/sendMessage" "987654321" text] :=
  have h := handler_store_down_chat_ok
    (sampleEnv (some (fun _ => .error "timeout")) (some "123456:ABC") (some "987654321") .ok)
    sampleBody "123456:ABC" "987654321" (by decide)
    (by rintro row ⟨insert, h1, h2⟩; cases h1; cases h2) rfl (by decide) rfl (by decide)
    (by decide) (fun _ => rfl)
  ⟨h.1, by obtain ⟨text, ht⟩ := h.2; exact ⟨text, ht.trans rfl⟩⟩

/-- C5, counterexample: the store generates the id 0 for the sample order and
the chat channel is not configured; the order is stored, yet the response
carries a null `orderId`. -/
theorem handler_zero_id_chat_unconfigured :
    ValidSubmission sampleBody ∧
    Stored (sampleEnv (some (fun _ => .data (sampleRow 0))) none none .ok) sampleBody
      (sampleRow 0) ∧
    (handler (sampleEnv (some (fun _ => .data (sampleRow 0))) none none .ok)
      (post sampleBody)).1 =
      { status := 200, body := .accepted true "Заказ принят" none true false } :=
  ⟨by decide, ⟨_, rfl, rfl⟩, by decide⟩

/-- C5, amended: for every valid submission for which the store insert
succeeds with a generated id other than zero and the chat delivery does not
succeed (the channel is unconfigured, rejects the message, or the
notification step throws), the handler responds 200 with success,
`savedToDatabase` true, `sentToTelegram` false and `orderId` equal to the
generated id. -/
theorem handler_stored_not_announced (env : ApiEnv) (body : OrderBody) (row : Order)
    (hv : ValidSubmission body) (hdb : Stored env body row) (hid : row.id ≠ 0)
    (htg : ¬ Delivered env (handler env (post body)).2) :
    (handler env (post body)).1 =
      { status := 200, body := .accepted true "Заказ принят" (some row.id) true false } := by
  rw [handler_of_valid env body hv] at htg ⊢
  have hsent : (notify env body (persist env body).1 (persist env body).2.1).1 = false := by
    rw [← Bool.not_eq_true, notify_sent_iff]
    exact fun h => htg ((delivered_append_persist env body _).2 h)
  simp only [persist_of_stored hdb] at hsent ⊢
  rw [hsent, respond_accepted env _ true false rfl, orNull_some hid]

/-- Witness of C5 (amended): the store generates id 42; one item has no
`selectedColor`, so formatting the item list throws and nothing is sent. -/
theorem handler_stored_not_announced_witness :
    (handler (healthyEnv 42)
      (post { sampleBody with items := some [{ sampleItem with selectedColor := none }] })).1 =
      { status := 200, body := .accepted true "Заказ принят" (some 42) true false } :=
  handler_stored_not_announced (healthyEnv 42)
    { sampleBody with items := some [{ sampleItem with selectedColor := none }] }
    (sampleRow 42) (by decide) ⟨_, rfl, rfl⟩ (by decide)
    (by rintro ⟨url, chat, text, hmem, -⟩
        have h : (handler (healthyEnv 42) (post { sampleBody with
          items := some [{ sampleItem with selectedColor := none }] })).2 =
            [.insert (newOrder (healthyEnv 42) { sampleBody with
              items := some [{ sampleItem with selectedColor := none }] })] := by decide
        rw [h] at hmem
        simp at hmem)

/-- C6, failing input: the sample order without a `total` passes validation;
the record, with no total, is inserted into the store and the handler
responds 200. -/
theorem handler_accepts_absent_total :
    handler (healthyEnv 7) (post bodyWithoutTotal) =
      ({ status := 200, body := .accepted true "Заказ принят" (some 7) true false },
       [.insert { customer_name := some "Алия", customer_phone := some "+77001234567",
                  customer_address := some "Алматы, Абая 1", customer_comment := "",
                  items := some [sampleItem, sampleItem], total := none, status := "new",
                  created_at := "2024-05-01T10:00:00.000Z" }]) := by
  decide

/-- C7: every record the handler inserts into the store has status `new`,
carries the name, phone, address, items and total of the request unchanged,
has `customer_comment` equal to the comment of the request, or empty when the
comment is absent, and has a non-empty items sequence and non-empty name,
phone and address. -/
theorem handler_inserted_record (env : ApiEnv) (req : Request) (o : NewOrder)
    (h : ApiEffect.insert o ∈ (handler env req).2) :
    o.status = "new" ∧
    o.customer_name = custField req.body.customer (·.name) ∧
    o.customer_phone = custField req.body.customer (·.phone) ∧
    o.customer_address = custField req.body.customer (·.address) ∧
    o.items = req.body.items ∧ o.total = req.body.total ∧
    o.customer_comment = (custField req.body.customer (·.comment)).getD "" ∧
    NonEmptyItems o.items ∧
    IsSet o.customer_name ∧ IsSet o.customer_phone ∧ IsSet o.customer_address := by
  unfold handler at h
  split at h
  · simp at h
  split at h
  · simp at h
  rename_i hc
  split at h
  · simp at h
  rename_i hi
  split at h
  · simp at h
  simp only [Bool.or_eq_true, Bool.not_eq_true', not_or, Bool.not_eq_false] at hc
  obtain ⟨⟨hn, hp⟩, ha⟩ := hc
  have ho : o = newOrder env req.body := by
    rcases List.mem_append.1 h with h1 | h1
    · exact ApiEffect.insert.inj (persist_trace env req.body _ h1)
    · obtain ⟨url, chat, text, h2⟩ := notify_trace env req.body _ _ _ h1
      exact ApiEffect.noConfusion h2
  subst ho
  refine ⟨rfl, rfl, rfl, rfl, rfl, rfl, ?_, ?_, (truthyStr_iff _).1 hn, (truthyStr_iff _).1 hp,
    (truthyStr_iff _).1 ha⟩
  · simp only [newOrder, commentOrEmpty]
    cases hcm : custField req.body.customer (·.comment) with
    | none => simp [truthyStr]
    | some c => by_cases hc0 : c = "" <;> simp [truthyStr, showOpt, hc0]
  · exact (itemsMissingOrEmpty_false_iff _).1 (by simpa using hi)

/-- Witness of C7: the record inserted for the sample order. -/
theorem handler_inserted_record_witness :
    (newOrder (healthyEnv 42) sampleBody).status = "new" :=
  (handler_inserted_record (healthyEnv 42) (post sampleBody) (newOrder (healthyEnv 42) sampleBody)
    (List.Mem.head _)).1

/-! ## Theorems on the admin bot -/

/-- C8: for every text command (`/start`, `/orders`, `/new`, `/stats`) and
every button press whose chat id, written as a decimal string, differs from
the configured administrator id, the bot makes one call, the denial, and
nothing else: the mirror is unchanged, no store call is made and no view is
rendered. -/
theorem non_admin_denied (env : BotEnv) (m : OrderCache) (chatId : Int)
    (h : toString chatId ≠ env.adminId) :
    handleEvent env m (.start chatId) =
      (m, [.sendMessage (.id chatId) "❌ У вас нет доступа" false none]) ∧
    handleEvent env m (.orders chatId) =
      (m, [.sendMessage (.id chatId) "❌ Нет доступа" false none]) ∧
    handleEvent env m (.new chatId) =
      (m, [.sendMessage (.id chatId) "❌ Нет доступа" false none]) ∧
    handleEvent env m (.stats chatId) =
      (m, [.sendMessage (.id chatId) "❌ Нет доступа" false none]) ∧
    ∀ (queryId : String) (messageId : Int) (data : String),
      handleEvent env m (.button
          { id := queryId, chatId := chatId, messageId := messageId, data := data }) =
        (m, [.answerCallbackQuery queryId (some "❌ Нет доступа") true]) := by
  refine ⟨?_, ?_, ?_, ?_, ?_⟩
  · simp [handleEvent, onStart, h]
  · simp [handleEvent, onOrders, h]
  · simp [handleEvent, onNew, h]
  · simp [handleEvent, onStats, h]
  · intro queryId messageId data
    simp [handleEvent, onCallbackQuery, h]

/-- Witness of C8: chat 5 is not the administrator 123456789 and sends
`/orders`. -/
theorem non_admin_denied_witness :
    handleEvent (sampleBotEnv (some okStore)) sampleMirror (.orders 5) =
      (sampleMirror, [.sendMessage (.id 5) "❌ Нет доступа" false none]) :=
  (non_admin_denied (sampleBotEnv (some okStore)) sampleMirror 5 (by decide)).2.1

/-- C9: a set-status press by the administrator, for any order id and any
status without an underscore (in particular the four statuses).  If the store
answers the update with a row, the store was called once, the mirror entry of
the id is that row, a confirmation is sent and the detail view is rendered
from the new mirror (for a row with well-formed items, as the detail message
of that row).  If the store answers with an error or throws, or no store is
configured, an error is reported and the mirror is as before. -/
theorem set_status_button (env : BotEnv) (m : OrderCache) (queryId : String)
    (chatId messageId id : Int) (status : String)
    (hadmin : toString chatId = env.adminId) (hstatus : '_' ∉ status.data) :
    (∀ store row, env.supabase = some store →
        store.update (.int id) (some status) = .data row →
      handleEvent env m (setStatusPress queryId chatId messageId id status) =
        (cacheSet m (.int id) row,
         [.storeUpdate (.int id) (some status),
          .answerCallbackQuery queryId
            (some ("✅ Статус изменён на " ++ showOpt (statusText status))) true] ++
          showOrderDetail env (cacheSet m (.int id) row) chatId (.int id)) ∧
      (handleEvent env m (setStatusPress queryId chatId messageId id status)).2.filter
          BotEffect.isStoreCall = [.storeUpdate (.int id) (some status)] ∧
      cacheGet (cacheSet m (.int id) row) (.int id) = some row ∧
      (wellFormedItems row = true → ∃ text, detailText env row = .ok text ∧
        showOrderDetail env (cacheSet m (.int id) row) chatId (.int id) =
          [.sendMessage (.id chatId) text true (some (detailKeyboard (.int id)))])) ∧
    (∀ store, env.supabase = some store →
        (∀ row, store.update (.int id) (some status) ≠ .data row) →
      handleEvent env m (setStatusPress queryId chatId messageId id status) =
        (m, [.storeUpdate (.int id) (some status),
             .answerCallbackQuery queryId (some "❌ Ошибка обновления") true])) ∧
    (env.supabase = none →
      handleEvent env m (setStatusPress queryId chatId messageId id status) =
        (m, [.answerCallbackQuery queryId (some "❌ Ошибка обновления") true])) := by
  have hev := setStatusPress_eq env m queryId chatId messageId id status hadmin hstatus
  refine ⟨?_, ?_, ?_⟩
  · intro store row hs hrow
    have hu : updateOrderStatus env m (.int id) (some status) =
        (some true, cacheSet m (.int id) row, [.storeUpdate (.int id) (some status)]) := by
      simp [updateOrderStatus, hs, hrow]
    rw [hu] at hev
    simp only [if_true, List.singleton_append, List.cons_append, List.nil_append] at hev
    have hget := cacheGet_cacheSet_self m (.int id) row
    refine ⟨by simpa using hev, ?_, hget, ?_⟩
    · rw [hev]
      simp [List.filter_cons, BotEffect.isStoreCall, showOrderDetail_no_store]
    · intro hwf
      obtain ⟨text, htext⟩ := detailText_ok env row hwf
      exact ⟨text, htext, by simp [showOrderDetail, hget, htext]⟩
  · intro store hs hfail
    have hu : updateOrderStatus env m (.int id) (some status) =
        (some false, m, [.storeUpdate (.int id) (some status)]) := by
      unfold updateOrderStatus
      simp only [hs]
      split
      · rename_i row hrow
        exact absurd hrow (hfail row)
      · rfl
      · rfl
    rw [hu] at hev
    simpa using hev
  · intro hs
    have hu : updateOrderStatus env m (.int id) (some status) = (none, m, []) := by
      simp [updateOrderStatus, hs]
    rw [hu] at hev
    simpa using hev

/-- Witness of C9: the administrator presses "confirm" on order 42, which the
mirror holds as `new`; afterwards the mirror holds it as `confirmed`. -/
theorem set_status_button_witness :
    (handleEvent (sampleBotEnv (some okStore)) sampleMirror
        (setStatusPress "q1" 123456789 7 42 "confirmed")).1 =
      cacheSet sampleMirror (.int 42) { sampleRow 42 with status := "confirmed" } ∧
    cacheGet (cacheSet sampleMirror (.int 42) { sampleRow 42 with status := "confirmed" })
      (.int 42) = some { sampleRow 42 with status := "confirmed" } :=
  have h := (set_status_button (sampleBotEnv (some okStore)) sampleMirror "q1" 123456789 7 42
    "confirmed" (by decide) (by decide)).1 okStore { sampleRow 42 with status := "confirmed" }
    rfl rfl
  ⟨congrArg Prod.fst h.1, h.2.2.1⟩

/-- C10: a delete press by the administrator, for any mirror and order id.
If the store performs the delete, the mirror loses its entry for the id and
keeps every other entry, and a later open press for the id is answered "not
found" from the mirror, with no store call, whatever the store holds.  If the
store answers with an error or throws, or no store is configured, an error is
reported and the mirror is as before. -/
theorem delete_button (env : BotEnv) (m : OrderCache) (queryId : String)
    (chatId messageId id : Int) (hadmin : toString chatId = env.adminId) :
    (∀ store u, env.supabase = some store → store.delete (.int id) = .data u →
      handleEvent env m (deletePress queryId chatId messageId id) =
        (cacheDelete m (.int id),
         [.storeDelete (.int id), .answerCallbackQuery queryId (some "✅ Заказ удалён") true,
          .deleteMessage chatId messageId] ++
          showOrdersList env (cacheDelete m (.int id)) chatId "all") ∧
      cacheGet (cacheDelete m (.int id)) (.int id) = none ∧
      (∀ k, k ≠ .int id → cacheGet (cacheDelete m (.int id)) k = cacheGet m k) ∧
      ∀ (env2 : BotEnv) (queryId2 : String) (messageId2 : Int),
        toString chatId = env2.adminId →
        handleEvent env2 (cacheDelete m (.int id)) (openPress queryId2 chatId messageId2 id) =
          (cacheDelete m (.int id),
           [.deleteMessage chatId messageId2,
            .sendMessage (.id chatId) "❌ Заказ не найден" false none,
            .answerCallbackQuery queryId2 none false])) ∧
    (∀ store, env.supabase = some store → (∀ u, store.delete (.int id) ≠ .data u) →
      handleEvent env m (deletePress queryId chatId messageId id) =
        (m, [.storeDelete (.int id),
             .answerCallbackQuery queryId (some "❌ Ошибка удаления") true])) ∧
    (env.supabase = none →
      handleEvent env m (deletePress queryId chatId messageId id) =
        (m, [.answerCallbackQuery queryId (some "❌ Ошибка удаления") true])) := by
  have hev := deletePress_eq env m queryId chatId messageId id hadmin
  refine ⟨?_, ?_, ?_⟩
  · intro store u hs hdel
    have hu : deleteOrder env m (.int id) =
        (some true, cacheDelete m (.int id), [.storeDelete (.int id)]) := by
      simp [deleteOrder, hs, hdel]
    rw [hu] at hev
    have hget := cacheGet_cacheDelete_self m (.int id)
    refine ⟨by simpa using hev, hget, fun k hk => cacheGet_cacheDelete_other m (.int id) k hk, ?_⟩
    intro env2 queryId2 messageId2 hadmin2
    rw [openPress_eq env2 _ queryId2 chatId messageId2 id hadmin2]
    simp [showOrderDetail, hget]
  · intro store hs hfail
    have hu : deleteOrder env m (.int id) = (some false, m, [.storeDelete (.int id)]) := by
      unfold deleteOrder
      simp only [hs]
      split
      · rename_i u hdel
        exact absurd hdel (hfail u)
      · rfl
      · rfl
    rw [hu] at hev
    simpa using hev
  · intro hs
    have hu : deleteOrder env m (.int id) = (none, m, []) := by
      simp [deleteOrder, hs]
    rw [hu] at hev
    simpa using hev

/-- Witness of C10: the administrator deletes order 42 from the sample mirror;
the mirror then has no entry for 42. -/
theorem delete_button_witness :
    (handleEvent (sampleBotEnv (some okStore)) sampleMirror
        (deletePress "q1" 123456789 7 42)).1 = cacheDelete sampleMirror (.int 42) ∧
    cacheGet (cacheDelete sampleMirror (.int 42)) (.int 42) = none :=
  have h := (delete_button (sampleBotEnv (some okStore)) sampleMirror "q1" 123456789 7 42
    (by decide)).1 okStore () rfl rfl
  ⟨congrArg Prod.fst h.1, h.2.1⟩

/-! ## Lemmas on reloading and on the list view -/

/-- Loading rows leaves the entries under keys that are not among their ids. -/
theorem cacheGet_load_other (rows : List Order) : ∀ (m : OrderCache) (k : JSNum),
    (∀ row ∈ rows, k ≠ .int row.id) →
    cacheGet (rows.foldl (fun c order => cacheSet c (.int order.id) order) m) k = cacheGet m k := by
  induction rows with
  | nil => intro m k _; rfl
  | cons r rs ih =>
    intro m k h
    rw [List.foldl_cons, ih _ k (fun row hrow => h row (List.mem_cons_of_mem _ hrow)),
      cacheGet_cacheSet_other m _ k r (h r (List.mem_cons_self _ _))]

/-- Loading rows with pairwise distinct ids puts each row under its id. -/
theorem cacheGet_load_mem (rows : List Order) : ∀ (m : OrderCache),
    (rows.map (·.id)).Nodup → ∀ row ∈ rows,
    cacheGet (rows.foldl (fun c order => cacheSet c (.int order.id) order) m) (.int row.id)
      = some row := by
  induction rows with
  | nil => intro m _ row hrow; exact absurd hrow (List.not_mem_nil _)
  | cons r rs ih =>
    intro m hnd row hrow
    rw [List.map_cons, List.nodup_cons] at hnd
    rw [List.foldl_cons]
    rcases List.mem_cons.1 hrow with h | h
    · subst h
      rw [cacheGet_load_other rs _ _ ?_, cacheGet_cacheSet_self]
      intro r2 hr2 heq
      exact hnd.1 (List.mem_map.2 ⟨r2, hr2, (JSNum.int.inj heq).symm⟩)
    · exact ih _ hnd.2 row h

theorem refresh_token_dispatch :
    startsWith "refresh" "filter_" = false ∧ startsWith "refresh" "order_" = false ∧
    startsWith "refresh" "status_" = false ∧ startsWith "refresh" "delete_" = false ∧
    ¬ ("refresh" = "stats") := by
  decide

/-- A refresh press by the administrator reloads the mirror, answers the
press and renders the list of all orders from the new mirror. -/
theorem refreshPress_eq (env : BotEnv) (m : OrderCache) (qid : String) (chatId mid : Int)
    (hadmin : toString chatId = env.adminId) :
    handleEvent env m (refreshPress qid chatId mid) =
      ((loadOrders env m).1, (loadOrders env m).2 ++
        [.answerCallbackQuery qid (some "🔄 Обновлено") true] ++
        showOrdersList env (loadOrders env m).1 chatId "all") := by
  have hd := refresh_token_dispatch
  simp only [handleEvent, refreshPress, onCallbackQuery, hadmin, ne_eq, not_true_eq_false,
    if_false, hd, Bool.false_eq_true, if_true]

theorem loadOrders_data (env : BotEnv) (m : OrderCache) (store : BotStore) (rows : List Order)
    (hs : env.supabase = some store) (hq : store.selectAll = .data rows) :
    loadOrders env m =
      (rows.foldl (fun c order => cacheSet c (.int order.id) order) m, [.storeSelectAll]) := by
  simp [loadOrders, hs, hq]

theorem foldl_append_init (l : List String) : ∀ init : String,
    l.foldl (fun r s => r ++ s) init = init ++ l.foldl (fun r s => r ++ s) "" := by
  induction l with
  | nil => intro init; simp
  | cons a as ih =>
    intro init
    rw [List.foldl_cons, List.foldl_cons, ih (init ++ a), ih ("" ++ a)]
    simp [String.append_assoc]

theorem join_cons (a : String) (l : List String) :
    String.join (a :: l) = a ++ String.join l := by
  unfold String.join
  rw [List.foldl_cons, foldl_append_init]
  simp

theorem foldl_append_join {α : Type} (f : α → String) (l : List α) : ∀ init : String,
    l.foldl (fun text p => text ++ f p) init = init ++ String.join (l.map f) := by
  induction l with
  | nil => intro init; simp [String.join]
  | cons a as ih =>
    intro init
    rw [List.foldl_cons, ih, List.map_cons, join_cons, String.append_assoc]

/-! ## Lemmas on the statistics -/

theorem totalSum_foldl (orders : List Order) : ∀ init : Int,
    orders.foldl (fun sum o => sum + o.total) init = init + (orders.map (·.total)).sum := by
  induction orders with
  | nil => intro init; simp
  | cons o os ih =>
    intro init
    rw [List.foldl_cons, ih, List.map_cons, List.sum_cons, add_assoc]

/-- The rounded quotient lies within one half of the quotient. -/
theorem roundDiv_bounds (s : Int) (n : Nat) (hn : 0 < n) :
    2 * s - n < 2 * n * roundDiv s n ∧ 2 * n * roundDiv s n ≤ 2 * s + n := by
  have hpos : (0 : Int) < 2 * (n : Int) := by omega
  have h1 := Int.ediv_add_emod (2 * s + n) (2 * (n : Int))
  have h2 := Int.emod_nonneg (2 * s + n) (ne_of_gt hpos)
  have h3 := Int.emod_lt_of_pos (2 * s + n) hpos
  unfold roundDiv
  constructor <;> linarith

/-- The two statistics texts are built from the number of orders, the status
lines, the sum and the mean. -/
theorem statsText_parts (env : BotEnv) (orders : List Order) :
    statsTextCommand env orders =
      "\n📊 *СТАТИСТИКА*\n\n" ++ "📋 Всего заказов: " ++ toString orders.length ++ "\n" ++
        renderStatusLines (statusLines orders) ++ "\n" ++
        "💰 Общая сумма: " ++ env.toLocaleString (totalSum orders) ++ "₸\n\n" ++
        "📈 Средний заказ: " ++ meanText env orders ++ "₸\n  " ∧
    statsTextButton env orders =
      "\n📊 *СТАТИСТИКА*\n\n" ++ "📋 Всего заказов: " ++ toString orders.length ++ "\n" ++
        renderStatusLines (statusLines orders) ++ "\n" ++
        "💰 Общая сумма: " ++ env.toLocaleString (totalSum orders) ++ "₸\n" ++
        "📈 Средний заказ: " ++ meanText env orders ++ "₸\n    " := by
  have e : ("\n\n" : String) = "\n" ++ "\n" := by decide
  have hnil : String.join [] = "" := rfl
  constructor
  · simp only [statsTextCommand, renderStatusLines, statusLines, List.map_cons, List.map_nil,
      join_cons, hnil, String.append_assoc, String.append_empty]
    rw [e]
    simp only [String.append_assoc]
  · simp only [statsTextButton, renderStatusLines, statusLines, List.map_cons, List.map_nil,
      join_cons, hnil, String.append_assoc, String.append_empty]
    rw [e]
    simp only [String.append_assoc]

theorem stats_token_dispatch :
    startsWith "stats" "filter_" = false ∧ startsWith "stats" "order_" = false ∧
    startsWith "stats" "status_" = false ∧ startsWith "stats" "delete_" = false := by
  decide

/-- A statistics press by the administrator sends the statistics text of the
mirror. -/
theorem statsPress_eq (env : BotEnv) (m : OrderCache) (qid : String) (chatId mid : Int)
    (hadmin : toString chatId = env.adminId) :
    handleEvent env m (statsPress qid chatId mid) =
      (m, [.deleteMessage chatId mid,
           .sendMessage (.id chatId) (statsTextButton env (cacheValues m)) true
             (some [[⟨"◀️ Назад", "filter_all"⟩]]),
           .answerCallbackQuery qid none false]) := by
  have hd := stats_token_dispatch
  simp only [handleEvent, statsPress, onCallbackQuery, hadmin, ne_eq, not_true_eq_false,
    if_false, hd, Bool.false_eq_true, if_true]

theorem statsCommand_eq (env : BotEnv) (m : OrderCache) (chatId : Int)
    (hadmin : toString chatId = env.adminId) :
    handleEvent env m (.stats chatId) =
      (m, [.sendMessage (.id chatId) (statsTextCommand env (cacheValues m)) true none]) := by
  simp [handleEvent, onStats, hadmin]

/-! ## Lemmas on repeated writes, on the checkout and on the dispatcher -/

theorem map_replace_of_no_key (k : JSNum) (v : Order) (l : OrderCache)
    (h : ∀ e ∈ l, hasKey k e = false) :
    l.map (fun e => if hasKey k e then (k, v) else e) = l := by
  induction l with
  | nil => rfl
  | cons e es ih =>
    rw [List.map_cons, h e (List.mem_cons_self _ _), if_neg Bool.false_ne_true,
      ih (fun e2 he2 => h e2 (List.mem_cons_of_mem _ he2))]

theorem map_replace_twice (k : JSNum) (v : Order) (l : OrderCache) :
    (l.map (fun e => if hasKey k e then (k, v) else e)).map
      (fun e => if hasKey k e then (k, v) else e) =
    l.map (fun e => if hasKey k e then (k, v) else e) := by
  induction l with
  | nil => rfl
  | cons e es ih =>
    rw [List.map_cons, List.map_cons, ih]
    cases he : hasKey k e
    · rw [if_neg Bool.false_ne_true, he, if_neg Bool.false_ne_true]
    · rw [if_pos rfl, hasKey_self, if_pos rfl]

theorem any_hasKey_cacheSet (m : OrderCache) (k : JSNum) (v : Order) :
    (cacheSet m k v).any (hasKey k) = true := by
  have h := cacheGet_cacheSet_self m k v
  unfold cacheGet at h
  cases hf : (cacheSet m k v).find? (hasKey k) with
  | none => rw [hf] at h; exact absurd h (by simp)
  | some e =>
    exact List.any_eq_true.2 ⟨e, List.mem_of_find?_eq_some hf, List.find?_some hf⟩

theorem mem_of_mem_dropWhile {α : Type} (p : α → Bool) (l : List α) (a : α)
    (h : a ∈ l.dropWhile p) : a ∈ l := by
  have h2 : a ∈ l.takeWhile p ++ l.dropWhile p := List.mem_append_right _ h
  rwa [List.takeWhile_append_dropWhile] at h2

theorem cacheSet_of_any (m : OrderCache) (k : JSNum) (v : Order)
    (h : m.any (hasKey k) = true) :
    cacheSet m k v = m.map (fun e => if hasKey k e then (k, v) else e) := by
  simp only [cacheSet, h, if_true]

/-- Writing the same row under the same key a second time changes nothing. -/
theorem cacheSet_idem (m : OrderCache) (k : JSNum) (v : Order) :
    cacheSet (cacheSet m k v) k v = cacheSet m k v := by
  rw [cacheSet_of_any (cacheSet m k v) k v (any_hasKey_cacheSet m k v)]
  unfold cacheSet
  split
  · exact map_replace_twice k v m
  · rename_i h
    have hno : ∀ e ∈ m, hasKey k e = false := by
      intro e he
      by_contra hc
      exact h (List.any_eq_true.2 ⟨e, he, by simpa using hc⟩)
    split
    · rw [List.map_append, List.map_cons, hasKey_self, if_pos rfl,
        map_replace_of_no_key k v _ (fun e he => hno e (mem_of_mem_takeWhile _ _ _ he)),
        map_replace_of_no_key k v _ (fun e he => hno e (mem_of_mem_dropWhile _ _ _ he))]
    · rw [List.map_append, List.map_cons, List.map_nil, hasKey_self, if_pos rfl,
        map_replace_of_no_key k v _ hno]

theorem setRowStatus_id (n : Int) (s : String) (r : Order) : (setRowStatus n s r).id = r.id := by
  unfold setRowStatus
  split <;> rfl

theorem setRowStatus_idem (n : Int) (s : String) (r : Order) :
    setRowStatus n s (setRowStatus n s r) = setRowStatus n s r := by
  unfold setRowStatus
  by_cases h : r.id = n <;> simp [h]

theorem find_map_setRowStatus (n : Int) (s : String) (t : List Order) :
    (t.map (setRowStatus n s)).find? (fun r => decide (r.id = n)) =
      (t.find? (fun r => decide (r.id = n))).map (setRowStatus n s) := by
  induction t with
  | nil => rfl
  | cons r rs ih =>
    rw [List.map_cons]
    by_cases h : r.id = n
    · have h2 : (setRowStatus n s r).id = n := by rw [setRowStatus_id]; exact h
      rw [find_cons_pos _ _ _ (by simpa using h2), find_cons_pos _ _ _ (by simpa using h)]
      rfl
    · have h2 : ¬ (setRowStatus n s r).id = n := by rw [setRowStatus_id]; exact h
      rw [find_cons_neg _ _ _ (by simpa using h2), find_cons_neg _ _ _ (by simpa using h), ih]

/-- A status write on a table row that is present returns the row with the
new status; writing the same status again returns the same row and leaves the
table as the first write left it. -/
theorem tableUpdate_twice (t : List Order) (n : Int) (s : String)
    (h : ∃ r ∈ t, r.id = n) :
    ∃ r : Order, r.id = n ∧
      tableUpdate t (.int n) (some s) = (.data { r with status := s }, t.map (setRowStatus n s)) ∧
      tableUpdate (t.map (setRowStatus n s)) (.int n) (some s) =
        (.data { r with status := s }, t.map (setRowStatus n s)) := by
  obtain ⟨r0, hr0, hid0⟩ := h
  cases hf : t.find? (fun r => decide (r.id = n)) with
  | none =>
    have := List.find?_eq_none.1 hf r0 hr0
    simp [hid0] at this
  | some r =>
    have hid : r.id = n := by simpa using List.find?_some hf
    refine ⟨r, hid, ?_, ?_⟩
    · simp only [tableUpdate, hf]
    · have hm : (t.map (setRowStatus n s)).map (setRowStatus n s) = t.map (setRowStatus n s) := by
        rw [List.map_map]
        exact List.map_congr_left (fun a _ => setRowStatus_idem n s a)
      simp only [tableUpdate, find_map_setRowStatus, hf, Option.map_some', hm]
      simp [setRowStatus, hid]

/-- A cart entry, sent as JSON, carries its price. -/
theorem pricesOf_cart (cart : List CartItem) :
    pricesOf (cart.map CartItem.toItem) = some (cart.map (·.price)) := by
  unfold pricesOf
  induction cart with
  | nil => rfl
  | cons c cs ih =>
    rw [List.map_cons, List.mapM_cons, ih]
    rfl

theorem getTotalPrice_foldl (cart : List CartItem) : ∀ init : Int,
    cart.foldl (fun sum item => sum + item.price) init = init + (cart.map (·.price)).sum := by
  induction cart with
  | nil => intro init; simp
  | cons c cs ih =>
    intro init
    rw [List.foldl_cons, ih, List.map_cons, List.sum_cons, add_assoc]

/-- The only record the handler inserts is the object literal of its store
block. -/
theorem handler_insert_newOrder (env : ApiEnv) (req : Request) (o : NewOrder)
    (h : ApiEffect.insert o ∈ (handler env req).2) : o = newOrder env req.body := by
  unfold handler at h
  split at h
  · simp at h
  split at h
  · simp at h
  split at h
  · simp at h
  split at h
  · simp at h
  rcases List.mem_append.1 h with h1 | h1
  · exact ApiEffect.insert.inj (persist_trace env req.body _ h1)
  · obtain ⟨url, chat, text, h2⟩ := notify_trace env req.body _ _ _ h1
    exact ApiEffect.noConfusion h2

/-- A token satisfies the condition of at most one branch of the button
handler. -/
theorem matchingBranches_length_le (data : String) : (matchingBranches data).length ≤ 1 := by
  by_cases h5 : data = "stats"
  · subst h5; decide
  by_cases h6 : data = "refresh"
  · subst h6; decide
  have e5 : decide (data = "stats") = false := by simpa using h5
  have e6 : decide (data = "refresh") = false := by simpa using h6
  cases hd : data.data with
  | nil =>
    simp [matchingBranches, branchTest, startsWith, hd, e5, e6, List.filter_cons, List.isPrefixOf]
  | cons c cs =>
    by_cases hf : c = 'f'
    · subst hf
      simp [matchingBranches, branchTest, startsWith, hd, e5, e6, List.filter_cons,
        List.isPrefixOf]
      split <;> simp
    by_cases ho : c = 'o'
    · subst ho
      simp [matchingBranches, branchTest, startsWith, hd, e5, e6, List.filter_cons,
        List.isPrefixOf]
      split <;> simp
    by_cases hs : c = 's'
    · subst hs
      simp [matchingBranches, branchTest, startsWith, hd, e5, e6, List.filter_cons,
        List.isPrefixOf]
      split <;> simp
    by_cases hdd : c = 'd'
    · subst hdd
      simp [matchingBranches, branchTest, startsWith, hd, e5, e6, List.filter_cons,
        List.isPrefixOf]
      split <;> simp
    have h1 : ('f' == c) = false := by simpa using fun e : 'f' = c => hf e.symm
    have h2 : ('o' == c) = false := by simpa using fun e : 'o' = c => ho e.symm
    have h3 : ('s' == c) = false := by simpa using fun e : 's' = c => hs e.symm
    have h4 : ('d' == c) = false := by simpa using fun e : 'd' = c => hdd e.symm
    simp [matchingBranches, branchTest, startsWith, hd, e5, e6, List.filter_cons,
      List.isPrefixOf, h1, h2, h3, h4]

/-- A token that satisfies the condition of a branch satisfies that of no
other branch. -/
theorem matchingBranches_of_test (data : String) (b : Branch) (h : branchTest data b = true) :
    matchingBranches data = [b] := by
  have hmem : b ∈ matchingBranches data := by
    unfold matchingBranches
    refine List.mem_filter.2 ⟨?_, h⟩
    cases b <;> simp
  have hlen := matchingBranches_length_le data
  cases hm : matchingBranches data with
  | nil => rw [hm] at hmem; exact absurd hmem (List.not_mem_nil _)
  | cons x xs =>
    cases xs with
    | nil =>
      rw [hm] at hmem
      rw [List.mem_singleton.1 hmem]
    | cons y ys =>
      rw [hm] at hlen
      simp at hlen


/-! ## Theorems on reloading and on the list view -/

/-- C11, counterexample: the mirror holds the orders 41 and 42 and the store
answers the refresh with order 42 alone; after the refresh the mirror still
holds an entry for 41, an id the store did not return. -/
theorem refresh_keeps_stale_entry :
    (storeReturning [sampleRow 42]).selectAll = .data [sampleRow 42] ∧
    cacheGet (handleEvent (sampleBotEnv (some (storeReturning [sampleRow 42]))) sampleMirror
      (refreshPress "q1" 123456789 7)).1 (.int 41) = some (sampleRow 41) ∧
    (41 : Int) ∉ [sampleRow 42].map (·.id) := by
  decide

/-- C11, amended: after a refresh whose store query succeeds with rows of
pairwise distinct ids, the mirror holds every row the store returned, under
its id, and keeps unchanged every entry under an id the store did not return;
so the ids in the mirror are the ids the store returned together with the ids
the mirror held before. -/
theorem refresh_merges_store (env : BotEnv) (m : OrderCache) (queryId : String)
    (chatId messageId : Int) (store : BotStore) (rows : List Order)
    (hadmin : toString chatId = env.adminId) (hs : env.supabase = some store)
    (hq : store.selectAll = .data rows) (hid : (rows.map (·.id)).Nodup) :
    (∀ row ∈ rows,
      cacheGet (handleEvent env m (refreshPress queryId chatId messageId)).1 (.int row.id)
        = some row) ∧
    (∀ k, (∀ row ∈ rows, k ≠ .int row.id) →
      cacheGet (handleEvent env m (refreshPress queryId chatId messageId)).1 k = cacheGet m k) ∧
    (∀ k, cacheGet (handleEvent env m (refreshPress queryId chatId messageId)).1 k ≠ none ↔
      (∃ row ∈ rows, k = .int row.id) ∨ cacheGet m k ≠ none) := by
  rw [refreshPress_eq env m queryId chatId messageId hadmin, loadOrders_data env m store rows hs hq]
  have h1 := cacheGet_load_mem rows m hid
  have h2 := cacheGet_load_other rows m
  refine ⟨h1, h2, fun k => ?_⟩
  by_cases hk : ∃ row ∈ rows, k = .int row.id
  · obtain ⟨row, hrow, rfl⟩ := hk
    simp only [h1 row hrow, ne_eq, not_false_eq_true, true_iff, reduceCtorEq]
    exact Or.inl ⟨row, hrow, rfl⟩
  · have hk2 : ∀ row ∈ rows, k ≠ .int row.id := fun row hrow heq => hk ⟨row, hrow, heq⟩
    simp only [h2 k hk2, hk, false_or]

/-- Witness of C11 (amended): the store answers the refresh with the orders
42 and 41; the mirror then holds the store's row of order 42. -/
theorem refresh_merges_store_witness :
    cacheGet (handleEvent (sampleBotEnv (some okStore)) sampleMirror
      (refreshPress "q1" 123456789 7)).1 (.int 42) = some (sampleRow 42) :=
  (refresh_merges_store (sampleBotEnv (some okStore)) sampleMirror "q1" 123456789 7 okStore
    [sampleRow 42, sampleRow 41] (by decide) rfl rfl (by decide)).1 (sampleRow 42)
    (List.mem_cons_self _ _)

/-- C12, failing input: the store answers the reload at start-up with order
42, created on 2 May, before order 41, created on 1 May; the list view of all
orders then shows order 41 first and order 42 second. -/
theorem reload_lists_oldest_first :
    (storeReturning [orderWith 42 "new" 9000 "2024-05-02T10:00:00.000Z",
      orderWith 41 "new" 5000 "2024-05-01T10:00:00.000Z"]).selectAll =
      .data [orderWith 42 "new" 9000 "2024-05-02T10:00:00.000Z",
             orderWith 41 "new" 5000 "2024-05-01T10:00:00.000Z"] ∧
    displayOrders (filterOrders (handleEvent
      (sampleBotEnv (some (storeReturning [orderWith 42 "new" 9000 "2024-05-02T10:00:00.000Z",
        orderWith 41 "new" 5000 "2024-05-01T10:00:00.000Z"]))) [] .startup).1 "all") =
      [orderWith 41 "new" 5000 "2024-05-01T10:00:00.000Z",
       orderWith 42 "new" 9000 "2024-05-02T10:00:00.000Z"] := by
  decide

theorem filterOrders_eq_matching (m : OrderCache) (filter : String) :
    filterOrders m filter = matchingOrders m filter := by
  unfold filterOrders matchingOrders cacheValues
  by_cases h : filter = "all"
  · subst h
    simp
  · simp only [ne_eq, h, not_false_eq_true, if_true, false_or, List.filter_map]
    rfl

theorem listRow_eq (env : BotEnv) (idx : Nat) (order : Order) :
    listRow env idx order =
      toString (idx + 1) ++ ". #" ++ toString order.id ++ " - " ++ order.customer_name ++ "\n" ++
      "   📦 " ++ toString (order.items.getD []).length ++ " товаров | 💰 " ++
        env.toLocaleString order.total ++ "₸\n" ++
      "   " ++ showOpt (statusEmoji order.status) ++ " " ++ showOpt (statusText order.status) ++
        "\n" ++
      "   📞 " ++ order.customer_phone ++ "\n\n" := by
  have hc : itemCount order = (order.items.getD []).length := by
    unfold itemCount
    cases order.items <;> rfl
  simp only [listRow, hc]

/-- C13: for every mirror and every filter, the list view is about the
orders of the mirror entries the filter selects, `k` of them.  When `k` is 0
it sends the not-found message.  Otherwise it sends one message: the header
with `k`, then one row for each of the first `min 10 k` selected orders, in
the order of the mirror, each row showing the position, id, customer name,
item count, total, status icon and label, and phone of its order; every such
order matches the filter.  A filter press by the administrator schedules this
view, and the timer runs it. -/
theorem list_view_renders (env : BotEnv) (m : OrderCache) (chatId : Int) (filter : String) :
    (matchingOrders m filter = [] →
      showOrdersList env m chatId filter =
        [.sendMessage (.id chatId) ("📭 Заказов не найдено (фильтр: " ++ filter ++ ")")
          false none]) ∧
    (matchingOrders m filter ≠ [] →
      showOrdersList env m chatId filter =
        [.sendMessage (.id chatId)
          ("📋 *Заказы* (" ++ toString (matchingOrders m filter).length ++ " всего)\n\n" ++
            String.join
              (((matchingOrders m filter).take (min 10 (matchingOrders m filter).length)).enum.map
                (fun p =>
                  toString (p.1 + 1) ++ ". #" ++ toString p.2.id ++ " - " ++
                    p.2.customer_name ++ "\n" ++
                  "   📦 " ++ toString (p.2.items.getD []).length ++ " товаров | 💰 " ++
                    env.toLocaleString p.2.total ++ "₸\n" ++
                  "   " ++ showOpt (statusEmoji p.2.status) ++ " " ++
                    showOpt (statusText p.2.status) ++ "\n" ++
                  "   📞 " ++ p.2.customer_phone ++ "\n\n")))
          true (some listKeyboard)]) ∧
    ((matchingOrders m filter).take (min 10 (matchingOrders m filter).length)).length
      = min 10 (matchingOrders m filter).length ∧
    (∀ o ∈ (matchingOrders m filter).take (min 10 (matchingOrders m filter).length),
      filter = "all" ∨ o.status = filter) ∧
    (statusEmoji "new" = some "🆕" ∧ statusText "new" = some "Новый заказ" ∧
      statusEmoji "confirmed" = some "✅" ∧ statusText "confirmed" = some "Подтвержден" ∧
      statusEmoji "delivered" = some "🚚" ∧ statusText "delivered" = some "Доставлен" ∧
      statusEmoji "cancelled" = some "❌" ∧ statusText "cancelled" = some "Отменен") ∧
    (∀ (queryId : String) (messageId : Int), toString chatId = env.adminId →
      handleEvent env m (filterPress queryId chatId messageId filter) =
        (m, [.editMessageText "⏳ Загрузка..." chatId messageId,
             .setTimeoutShowOrdersList chatId filter 500,
             .answerCallbackQuery queryId none false]) ∧
      handleEvent env m (.timer chatId filter) = (m, showOrdersList env m chatId filter)) := by
  have hf := filterOrders_eq_matching m filter
  have htake : (matchingOrders m filter).take (min 10 (matchingOrders m filter).length)
      = (matchingOrders m filter).take 10 := by
    rcases Nat.le_total 10 (matchingOrders m filter).length with h | h
    · rw [Nat.min_eq_left h]
    · rw [Nat.min_eq_right h, List.take_length, List.take_of_length_le h]
  refine ⟨?_, ?_, ?_, ?_, by decide, ?_⟩
  · intro h
    simp [showOrdersList, hf, h]
  · intro h
    have hlen : ((matchingOrders m filter).length == 0) = false := by
      simpa using h
    have hrow : (fun p : Nat × Order => listRow env p.1 p.2) = fun p =>
        toString (p.1 + 1) ++ ". #" ++ toString p.2.id ++ " - " ++
          p.2.customer_name ++ "\n" ++
        "   📦 " ++ toString (p.2.items.getD []).length ++ " товаров | 💰 " ++
          env.toLocaleString p.2.total ++ "₸\n" ++
        "   " ++ showOpt (statusEmoji p.2.status) ++ " " ++
          showOpt (statusText p.2.status) ++ "\n" ++
        "   📞 " ++ p.2.customer_phone ++ "\n\n" :=
      funext (fun p => listRow_eq env p.1 p.2)
    simp only [showOrdersList, hf, hlen, Bool.false_eq_true, if_false, listText, displayOrders,
      foldl_append_join, htake, hrow]
  · simp [List.length_take]
  · intro o ho
    have ho2 : o ∈ matchingOrders m filter := List.mem_of_mem_take ho
    unfold matchingOrders at ho2
    obtain ⟨e, he, heo⟩ := List.mem_map.1 ho2
    have hp := (List.mem_filter.1 he).2
    rw [← heo]
    simpa using hp
  · intro queryId messageId hadmin
    have hd : startsWith ("filter_" ++ filter) "filter_" = true := startsWith_append _ _
    have hr : replaceWithEmpty ("filter_" ++ filter) "filter_" = filter :=
      replaceWithEmpty_head _ _ (by decide)
    refine ⟨?_, rfl⟩
    simp only [handleEvent, filterPress, onCallbackQuery, hadmin, ne_eq, not_true_eq_false,
      if_false, hd, hr, if_true]

set_option maxRecDepth 20000 in
/-- Witness of C13: the list views of a mirror holding the new orders 41 and
43 and the confirmed order 42.  The filter `new` lists 41 and 43, the filter
`confirmed` lists 42, and the filter `delivered` finds nothing. -/
theorem list_view_renders_witness :
    showOrdersList (sampleBotEnv (some okStore)) mixedMirror 123456789 "new" =
      [.sendMessage (.id 123456789)
        "📋 *Заказы* (2 всего)\n\n1. #41 - Алия\n   📦 2 товаров | 💰 15000₸\n   🆕 Новый заказ\n   📞 +77001234567\n\n2. #43 - Алия\n   📦 2 товаров | 💰 7000₸\n   🆕 Новый заказ\n   📞 +77001234567\n\n"
        true
        (some [[⟨"🆕 Новые", "filter_new"⟩, ⟨"✅ Подтвержденные", "filter_confirmed"⟩],
               [⟨"🚚 Доставленные", "filter_delivered"⟩, ⟨"❌ Отменённые", "filter_cancelled"⟩],
               [⟨"📋 Все", "filter_all"⟩, ⟨"🔄 Обновить", "refresh"⟩]])] ∧
    showOrdersList (sampleBotEnv (some okStore)) mixedMirror 123456789 "confirmed" =
      [.sendMessage (.id 123456789)
        "📋 *Заказы* (1 всего)\n\n1. #42 - Алия\n   📦 2 товаров | 💰 9000₸\n   ✅ Подтвержден\n   📞 +77001234567\n\n"
        true
        (some [[⟨"🆕 Новые", "filter_new"⟩, ⟨"✅ Подтвержденные", "filter_confirmed"⟩],
               [⟨"🚚 Доставленные", "filter_delivered"⟩, ⟨"❌ Отменённые", "filter_cancelled"⟩],
               [⟨"📋 Все", "filter_all"⟩, ⟨"🔄 Обновить", "refresh"⟩]])] ∧
    showOrdersList (sampleBotEnv (some okStore)) mixedMirror 123456789 "delivered" =
      [.sendMessage (.id 123456789) "📭 Заказов не найдено (фильтр: delivered)" false none] :=
  ⟨((list_view_renders (sampleBotEnv (some okStore)) mixedMirror 123456789 "new").2.1
      (by decide)).trans (by decide),
   ((list_view_renders (sampleBotEnv (some okStore)) mixedMirror 123456789 "confirmed").2.1
      (by decide)).trans (by decide),
   ((list_view_renders (sampleBotEnv (some okStore)) mixedMirror 123456789 "delivered").1
      (by decide)).trans (by decide)⟩

/-! ## Theorems on the statistics, the detail view and the new-order message -/

/-- C14, counterexample: the mirror holds one order, with status `cancelled`.
Both statistics texts carry the lines for new, confirmed and delivered, each
with the count 0, and no line with the count of cancelled orders, which is 1. -/
theorem stats_without_cancelled_count :
    countStatus (cacheValues [(.int 1, orderWith 1 "cancelled" 5000 "2024-05-01")])
      "cancelled" = 1 ∧
    (statusLines (cacheValues [(.int 1, orderWith 1 "cancelled" 5000 "2024-05-01")])).map
      (fun l => (l.1, l.2.2)) = [("new", 0), ("confirmed", 0), ("delivered", 0)] ∧
    statsTextCommand (sampleBotEnv none)
      (cacheValues [(.int 1, orderWith 1 "cancelled" 5000 "2024-05-01")]) =
      "\n📊 *СТАТИСТИКА*\n\n📋 Всего заказов: 1\n🆕 Новых: 0\n✅ Подтвержденных: 0\n🚚 Доставленных: 0\n\n💰 Общая сумма: 5000₸\n\n📈 Средний заказ: 5000₸\n  " ∧
    statsTextButton (sampleBotEnv none)
      (cacheValues [(.int 1, orderWith 1 "cancelled" 5000 "2024-05-01")]) =
      "\n📊 *СТАТИСТИКА*\n\n📋 Всего заказов: 1\n🆕 Новых: 0\n✅ Подтвержденных: 0\n🚚 Доставленных: 0\n\n💰 Общая сумма: 5000₸\n📈 Средний заказ: 5000₸\n    " := by
  decide

/-- C14, amended: for every mirror, the statistics view of the `/stats`
command and of the statistics button reports the number of mirrored orders
and one count for each of the statuses new, confirmed and delivered, each
equal to the number of mirrored orders with that status; there is no count
for cancelled. -/
theorem stats_status_counts (env : BotEnv) (m : OrderCache) (chatId : Int)
    (hadmin : toString chatId = env.adminId) :
    handleEvent env m (.stats chatId) =
      (m, [.sendMessage (.id chatId)
        ("\n📊 *СТАТИСТИКА*\n\n" ++ "📋 Всего заказов: " ++ toString (cacheValues m).length ++
          "\n" ++ renderStatusLines (statusLines (cacheValues m)) ++ "\n" ++
          "💰 Общая сумма: " ++ env.toLocaleString (totalSum (cacheValues m)) ++ "₸\n\n" ++
          "📈 Средний заказ: " ++ meanText env (cacheValues m) ++ "₸\n  ") true none]) ∧
    (∀ (queryId : String) (messageId : Int),
      handleEvent env m (statsPress queryId chatId messageId) =
        (m, [.deleteMessage chatId messageId,
          .sendMessage (.id chatId)
            ("\n📊 *СТАТИСТИКА*\n\n" ++ "📋 Всего заказов: " ++
              toString (cacheValues m).length ++
              "\n" ++ renderStatusLines (statusLines (cacheValues m)) ++ "\n" ++
              "💰 Общая сумма: " ++ env.toLocaleString (totalSum (cacheValues m)) ++ "₸\n" ++
              "📈 Средний заказ: " ++ meanText env (cacheValues m) ++ "₸\n    ") true
            (some [[⟨"◀️ Назад", "filter_all"⟩]]),
          .answerCallbackQuery queryId none false])) ∧
    statusLines (cacheValues m) =
      [("new", "🆕 Новых: ",
          ((cacheValues m).filter (fun o => decide (o.status = "new"))).length),
       ("confirmed", "✅ Подтвержденных: ",
          ((cacheValues m).filter (fun o => decide (o.status = "confirmed"))).length),
       ("delivered", "🚚 Доставленных: ",
          ((cacheValues m).filter (fun o => decide (o.status = "delivered"))).length)] := by
  refine ⟨?_, ?_, rfl⟩
  · rw [statsCommand_eq env m chatId hadmin, (statsText_parts env (cacheValues m)).1]
  · intro queryId messageId
    rw [statsPress_eq env m queryId chatId messageId hadmin,
      (statsText_parts env (cacheValues m)).2]

/-- Witness of C14 (amended): the administrator sends `/stats` over the sample
mirror, whose two orders are new. -/
theorem stats_status_counts_witness :
    statusLines (cacheValues sampleMirror) =
      [("new", "🆕 Новых: ", 2), ("confirmed", "✅ Подтвержденных: ", 0),
       ("delivered", "🚚 Доставленных: ", 0)] :=
  (stats_status_counts (sampleBotEnv none) sampleMirror 123456789 (by decide)).2.2.trans
    (by decide)

/-- C15: for every mirror, the sum in both statistics texts is the sum of
`total` over the mirrored orders; the mean in both is `0` for an empty mirror
and otherwise the formatted integer nearest to the sum divided by the number
of orders (within one half of it); and the command and the button print the
same sum and the same mean. -/
theorem stats_sum_and_mean (env : BotEnv) (m : OrderCache) :
    totalSum (cacheValues m) = ((cacheValues m).map (·.total)).sum ∧
    (cacheValues m = [] → meanText env (cacheValues m) = "0") ∧
    (cacheValues m ≠ [] → ∃ mean : Int,
      meanText env (cacheValues m) = env.toLocaleString mean ∧
      2 * ((cacheValues m).map (·.total)).sum - (cacheValues m).length
        < 2 * (cacheValues m).length * mean ∧
      2 * (cacheValues m).length * mean
        ≤ 2 * ((cacheValues m).map (·.total)).sum + (cacheValues m).length) ∧
    statsTextCommand env (cacheValues m) =
      "\n📊 *СТАТИСТИКА*\n\n" ++ "📋 Всего заказов: " ++ toString (cacheValues m).length ++
        "\n" ++ renderStatusLines (statusLines (cacheValues m)) ++ "\n" ++
        "💰 Общая сумма: " ++ env.toLocaleString (((cacheValues m).map (·.total)).sum) ++
        "₸\n\n" ++ "📈 Средний заказ: " ++ meanText env (cacheValues m) ++ "₸\n  " ∧
    statsTextButton env (cacheValues m) =
      "\n📊 *СТАТИСТИКА*\n\n" ++ "📋 Всего заказов: " ++ toString (cacheValues m).length ++
        "\n" ++ renderStatusLines (statusLines (cacheValues m)) ++ "\n" ++
        "💰 Общая сумма: " ++ env.toLocaleString (((cacheValues m).map (·.total)).sum) ++
        "₸\n" ++ "📈 Средний заказ: " ++ meanText env (cacheValues m) ++ "₸\n    " := by
  have hsum : totalSum (cacheValues m) = ((cacheValues m).map (·.total)).sum := by
    unfold totalSum
    rw [totalSum_foldl, zero_add]
  refine ⟨hsum, ?_, ?_, ?_, ?_⟩
  · intro h
    simp [meanText, h]
  · intro h
    have hlen : 0 < (cacheValues m).length := List.length_pos.2 h
    refine ⟨roundDiv (totalSum (cacheValues m)) (cacheValues m).length, ?_, ?_⟩
    · simp [meanText, hlen]
    · rw [← hsum]
      exact roundDiv_bounds _ _ hlen
  · rw [(statsText_parts env (cacheValues m)).1, hsum]
  · rw [(statsText_parts env (cacheValues m)).2, hsum]

/-- Witness of C15: the sample mirror holds two orders of 15000 each; the
mean printed is 15000. -/
theorem stats_sum_and_mean_witness :
    totalSum (cacheValues sampleMirror) = 30000 ∧
    meanText (sampleBotEnv none) (cacheValues sampleMirror) = "15000" :=
  ⟨(stats_sum_and_mean (sampleBotEnv none) sampleMirror).1.trans (by decide), by decide⟩

/-- C16, counterexample: the detail view of order 42 of the sample mirror
offers the tokens for confirmed, delivered, cancelled, delete and back; there
is no set-status button for `new`. -/
theorem detail_view_without_new_button :
    (showOrderDetail (sampleBotEnv none) sampleMirror 123456789 (.int 42)).map effectTokens =
      [["status_42_confirmed", "status_42_delivered", "status_42_cancelled", "delete_42",
        "filter_all"]] ∧
    "status_42_new" ∉ keyboardTokens (detailKeyboard (.int 42)) := by
  decide

/-- C16, amended: for every order in the mirror whose items are well formed,
the detail view is one message that offers one set-status button for each of
the statuses confirmed, delivered and cancelled and one delete button, each
carrying the id the order is kept under, and a back button. -/
theorem detail_view_buttons (env : BotEnv) (m : OrderCache) (chatId id : Int) (order : Order)
    (hget : cacheGet m (.int id) = some order) (hwf : wellFormedItems order = true) :
    (∃ text, detailText env order = .ok text ∧
      showOrderDetail env m chatId (.int id) =
        [.sendMessage (.id chatId) text true (some (detailKeyboard (.int id)))]) ∧
    keyboardTokens (detailKeyboard (.int id)) =
      ["status_" ++ toString id ++ "_confirmed", "status_" ++ toString id ++ "_delivered",
       "status_" ++ toString id ++ "_cancelled", "delete_" ++ toString id, "filter_all"] := by
  refine ⟨?_, rfl⟩
  obtain ⟨text, htext⟩ := detailText_ok env order hwf
  exact ⟨text, htext, by simp [showOrderDetail, hget, htext]⟩

/-- Witness of C16 (amended): order 42 of the sample mirror. -/
theorem detail_view_buttons_witness :
    keyboardTokens (detailKeyboard (.int 42)) =
      ["status_" ++ toString (42 : Int) ++ "_confirmed",
       "status_" ++ toString (42 : Int) ++ "_delivered",
       "status_" ++ toString (42 : Int) ++ "_cancelled", "delete_" ++ toString (42 : Int),
       "filter_all"] :=
  (detail_view_buttons (sampleBotEnv none) sampleMirror 123456789 42 (sampleRow 42)
    (by decide) (by decide)).2

/-- C17, counterexample: with no store client configured, the new-order
notification of order 5 leaves the mirror empty and sends nothing. -/
theorem notify_without_store_does_nothing :
    handleEvent (sampleBotEnv none) [] (.newOrder (sampleRow 5)) = ([], []) := by
  decide

/-- C17, amended: when a store client is configured, for every order passed
to the new-order notification the bot puts that order into its mirror under
the id of the order, leaving all other entries unchanged, and sends to the
administrator one message with exactly two buttons, open (`order_<id>`) and
confirm (`status_<id>_confirmed`). -/
theorem notify_new_order (env : BotEnv) (m : OrderCache) (order : Order) (store : BotStore)
    (hs : env.supabase = some store) :
    (∃ text, handleEvent env m (.newOrder order) =
      (cacheSet m (.int order.id) order,
       [.sendMessage (.name env.adminId) text true
         (some [[⟨"📋 Открыть", "order_" ++ toString order.id⟩],
                [⟨"✅ Подтвердить", "status_" ++ toString order.id ++ "_confirmed"⟩]])])) ∧
    cacheGet (handleEvent env m (.newOrder order)).1 (.int order.id) = some order ∧
    (∀ k, k ≠ .int order.id →
      cacheGet (handleEvent env m (.newOrder order)).1 k = cacheGet m k) := by
  have h : (handleEvent env m (.newOrder order)).1 = cacheSet m (.int order.id) order := by
    simp [handleEvent, notifyNewOrder, hs]
  refine ⟨?_, ?_, ?_⟩
  · simp only [handleEvent, notifyNewOrder, hs]
    exact ⟨_, rfl⟩
  · rw [h, cacheGet_cacheSet_self]
  · intro k hk
    rw [h, cacheGet_cacheSet_other m _ k order hk]

/-- Witness of C17 (amended): order 43 is announced to a bot whose mirror
holds the orders 41 and 42. -/
theorem notify_new_order_witness :
    cacheGet (handleEvent (sampleBotEnv (some okStore)) sampleMirror
      (.newOrder (sampleRow 43))).1 (.int 43) = some (sampleRow 43) :=
  (notify_new_order (sampleBotEnv (some okStore)) sampleMirror (sampleRow 43) okStore rfl).2.1

/-! ## Theorems on repeated writes, on the checkout and on the dispatcher -/

/-- C18: against a store table that holds a row with the id, setting the
status to `confirmed` twice in a row succeeds both times, and the store and
the mirror after the second call are the store and the mirror after the
first. -/
theorem confirm_twice_idempotent (env : BotEnv) (t : List Order) (m : OrderCache) (n : Int)
    (h : ∃ r ∈ t, r.id = n) :
    (updateAgainstTable env t m (.int n) (some "confirmed")).1 = some true ∧
    updateAgainstTable env (updateAgainstTable env t m (.int n) (some "confirmed")).2.1
        (updateAgainstTable env t m (.int n) (some "confirmed")).2.2 (.int n) (some "confirmed") =
      (some true, (updateAgainstTable env t m (.int n) (some "confirmed")).2.1,
        (updateAgainstTable env t m (.int n) (some "confirmed")).2.2) := by
  obtain ⟨r, -, h1, h2⟩ := tableUpdate_twice t n "confirmed" h
  have e1 : updateAgainstTable env t m (.int n) (some "confirmed") =
      (some true, t.map (setRowStatus n "confirmed"),
        cacheSet m (.int n) { r with status := "confirmed" }) := by
    simp only [updateAgainstTable, updateOrderStatus, tableStore, h1]
  rw [e1]
  refine ⟨rfl, ?_⟩
  simp only [updateAgainstTable, updateOrderStatus, tableStore, h2, cacheSet_idem]

/-- Witness of C18: order 2 of a table of two orders is confirmed twice. -/
theorem confirm_twice_idempotent_witness :
    (updateAgainstTable (sampleBotEnv none) [sampleRow 1, sampleRow 2] sampleMirror (.int 2)
      (some "confirmed")).1 = some true :=
  (confirm_twice_idempotent (sampleBotEnv none) [sampleRow 1, sampleRow 2] sampleMirror 2
    ⟨sampleRow 2, by decide, rfl⟩).1

/-- C19: for every cart and every form that passes the check of the checkout
view, the request the storefront sends carries the cart as its items and, as
its total, the sum of the prices of those items (0 for an empty cart); and
every record the order endpoint inserts for that request has a total equal to
the sum of the prices of its items. -/
theorem checkout_total (form : CheckoutForm) (cart : List CartItem) (req : Request)
    (h : handleSubmit form cart = some req) :
    req.body.items = some (cart.map CartItem.toItem) ∧
    pricesOf (cart.map CartItem.toItem) = some (cart.map (·.price)) ∧
    req.body.total = some ((cart.map (·.price)).sum) ∧
    (cart = [] → req.body.total = some 0) ∧
    ∀ (env : ApiEnv) (o : NewOrder), ApiEffect.insert o ∈ (handler env req).2 →
      ∃ items prices, o.items = some items ∧ pricesOf items = some prices ∧
        o.total = some prices.sum := by
  unfold handleSubmit at h
  split at h
  · exact absurd h (by simp)
  · have hreq := (Option.some.inj h).symm
    subst hreq
    have htotal : getTotalPrice cart = (cart.map (·.price)).sum := by
      unfold getTotalPrice
      rw [getTotalPrice_foldl, zero_add]
    refine ⟨rfl, pricesOf_cart cart, by simp only [htotal], ?_, ?_⟩
    · intro hc
      subst hc
      rfl
    · intro env o ho
      have hn := handler_insert_newOrder env _ o ho
      subst hn
      exact ⟨_, _, rfl, pricesOf_cart cart, by simp only [newOrder, htotal]⟩

/-- Witness of C19: a cart of two items, of 7500 and 5000, is submitted with
the total 12500. -/
theorem checkout_total_witness :
    sampleCheckoutRequest.body.total = some 12500 :=
  (checkout_total sampleForm sampleCart sampleCheckoutRequest (by decide)).2.2.1.trans
    (by decide)

/-- With a store, `updateOrderStatus` makes one store call: the update of the
given id to the given status. -/
theorem updateOrderStatus_calls (env : BotEnv) (m : OrderCache) (k : JSNum)
    (s : Option String) (store : BotStore) (h : env.supabase = some store) :
    (updateOrderStatus env m k s).2.2 = [.storeUpdate k s] := by
  simp only [updateOrderStatus, h]
  split <;> rfl

/-- With a store, `deleteOrder` makes one store call: the delete of the given
id. -/
theorem deleteOrder_calls (env : BotEnv) (m : OrderCache) (k : JSNum) (store : BotStore)
    (h : env.supabase = some store) :
    (deleteOrder env m k).2.2 = [.storeDelete k] := by
  simp only [deleteOrder, h]
  split <;> rfl

/-- The list view makes no store call. -/
theorem showOrdersList_no_store (env : BotEnv) (m : OrderCache) (chatId : Int)
    (filter : String) :
    (showOrdersList env m chatId filter).filter BotEffect.isStoreCall = [] := by
  unfold showOrdersList
  split <;> rfl

/-- C20: for every integer order id and every status among confirmed,
delivered and cancelled, the token `status_<id>_<status>` is on the detail
keyboard of the id, satisfies the condition of the set-status branch alone,
and is parsed back to that id and status; `delete_<id>` and `order_<id>`
satisfy the condition of the delete and of the open branch alone and are
parsed back to the id; the filter tokens, `stats` and `refresh` satisfy one
condition each; no string satisfies the conditions of two branches; the
new-order message for an order with the id carries `order_<id>` and
`status_<id>_confirmed`.  A press of `status_<id>_<status>` by the
administrator updates exactly order `id` to `status`: the handler result is
that of the set-status branch on `id` and `status`, and with a store the only
store call is the update of `id` to `status`.  A press of `delete_<id>`
deletes exactly order `id`, with the delete of `id` as only store call, and a
press of `order_<id>` shows the detail of `id`. -/
theorem token_round_trip (id : Int) (status : String)
    (hs : status ∈ ["confirmed", "delivered", "cancelled"]) :
    "status_" ++ toString id ++ "_" ++ status ∈ keyboardTokens (detailKeyboard (.int id)) ∧
    matchingBranches ("status_" ++ toString id ++ "_" ++ status) = [.status] ∧
    parseInt (statusParts ("status_" ++ toString id ++ "_" ++ status)).1 = .int id ∧
    (statusParts ("status_" ++ toString id ++ "_" ++ status)).2 = some status ∧
    matchingBranches ("delete_" ++ toString id) = [.delete] ∧
    parseInt (some (replaceWithEmpty ("delete_" ++ toString id) "delete_")) = .int id ∧
    matchingBranches ("order_" ++ toString id) = [.order] ∧
    parseInt (some (replaceWithEmpty ("order_" ++ toString id) "order_")) = .int id ∧
    (∀ f ∈ ["new", "confirmed", "delivered", "cancelled", "all"],
      matchingBranches ("filter_" ++ f) = [.filter] ∧
      replaceWithEmpty ("filter_" ++ f) "filter_" = f) ∧
    matchingBranches "stats" = [.stats] ∧ matchingBranches "refresh" = [.refresh] ∧
    (∀ data, (matchingBranches data).length ≤ 1) ∧
    "delete_" ++ toString id ∈ keyboardTokens (detailKeyboard (.int id)) ∧
    (∀ (env : BotEnv) (m : OrderCache) (order : Order) (store : BotStore),
      env.supabase = some store → order.id = id →
      (notifyNewOrder env m order).2.flatMap effectTokens =
        ["order_" ++ toString id, "status_" ++ toString id ++ "_confirmed"]) ∧
    (∀ (env : BotEnv) (m : OrderCache) (queryId : String) (chatId messageId : Int),
      toString chatId = env.adminId →
      handleEvent env m (setStatusPress queryId chatId messageId id status) =
        (if (updateOrderStatus env m (.int id) (some status)).1 = some true then
          ((updateOrderStatus env m (.int id) (some status)).2.1,
           (updateOrderStatus env m (.int id) (some status)).2.2 ++
            [.answerCallbackQuery queryId
              (some ("✅ Статус изменён на " ++ showOpt (statusText status))) true] ++
            showOrderDetail env (updateOrderStatus env m (.int id) (some status)).2.1 chatId
              (.int id))
        else
          ((updateOrderStatus env m (.int id) (some status)).2.1,
           (updateOrderStatus env m (.int id) (some status)).2.2 ++
            [.answerCallbackQuery queryId (some "❌ Ошибка обновления") true])) ∧
      handleEvent env m (deletePress queryId chatId messageId id) =
        (if (deleteOrder env m (.int id)).1 = some true then
          ((deleteOrder env m (.int id)).2.1,
           (deleteOrder env m (.int id)).2.2 ++
            [.answerCallbackQuery queryId (some "✅ Заказ удалён") true,
             .deleteMessage chatId messageId] ++
            showOrdersList env (deleteOrder env m (.int id)).2.1 chatId "all")
        else
          ((deleteOrder env m (.int id)).2.1,
           (deleteOrder env m (.int id)).2.2 ++
            [.answerCallbackQuery queryId (some "❌ Ошибка удаления") true])) ∧
      handleEvent env m (openPress queryId chatId messageId id) =
        (m, [.deleteMessage chatId messageId] ++ showOrderDetail env m chatId (.int id) ++
          [.answerCallbackQuery queryId none false]) ∧
      (∀ store : BotStore, env.supabase = some store →
        (handleEvent env m (setStatusPress queryId chatId messageId id status)).2.filter
            BotEffect.isStoreCall = [.storeUpdate (.int id) (some status)] ∧
        (handleEvent env m (deletePress queryId chatId messageId id)).2.filter
            BotEffect.isStoreCall = [.storeDelete (.int id)])) := by
  have hus : '_' ∉ status.data := by
    simp only [List.mem_cons, List.mem_singleton, List.not_mem_nil, or_false] at hs
    rcases hs with rfl | rfl | rfl <;> decide
  have hparts := statusParts_token id status hus
  have e : "status_" ++ toString id ++ "_" ++ status
      = "status_" ++ (toString id ++ "_" ++ status) := by
    simp [String.append_assoc]
  have hst := status_token_dispatch (toString id ++ "_" ++ status)
  have hdl := delete_token_dispatch (toString id)
  have hor := order_token_dispatch (toString id)
  refine ⟨?_, ?_, ?_, ?_, ?_, ?_, ?_, ?_, ?_, by decide, by decide,
    matchingBranches_length_le, ?_, ?_, ?_⟩
  · have hk : keyboardTokens (detailKeyboard (.int id)) =
        ["status_" ++ toString id ++ "_confirmed", "status_" ++ toString id ++ "_delivered",
         "status_" ++ toString id ++ "_cancelled", "delete_" ++ toString id, "filter_all"] := rfl
    have q1 : "status_" ++ toString id ++ "_" ++ "confirmed"
        = "status_" ++ toString id ++ "_confirmed" := by rw [String.append_assoc]; rfl
    have q2 : "status_" ++ toString id ++ "_" ++ "delivered"
        = "status_" ++ toString id ++ "_delivered" := by rw [String.append_assoc]; rfl
    have q3 : "status_" ++ toString id ++ "_" ++ "cancelled"
        = "status_" ++ toString id ++ "_cancelled" := by rw [String.append_assoc]; rfl
    simp only [List.mem_cons, List.mem_singleton, List.not_mem_nil, or_false] at hs
    rw [hk]
    rcases hs with rfl | rfl | rfl
    · rw [q1]; exact List.mem_cons_self _ _
    · rw [q2]; exact List.mem_cons_of_mem _ (List.mem_cons_self _ _)
    · rw [q3]
      exact List.mem_cons_of_mem _ (List.mem_cons_of_mem _ (List.mem_cons_self _ _))
  · apply matchingBranches_of_test
    rw [e]
    exact hst.2.2
  · rw [hparts]; exact parseInt_toString id
  · rw [hparts]
  · exact matchingBranches_of_test _ _ hdl.2.2.2
  · rw [replaceWithEmpty_head _ _ (by decide)]; exact parseInt_toString id
  · exact matchingBranches_of_test _ _ hor.2
  · rw [replaceWithEmpty_head _ _ (by decide)]; exact parseInt_toString id
  · intro f _
    exact ⟨matchingBranches_of_test _ _ (startsWith_append _ _),
      replaceWithEmpty_head _ _ (by decide)⟩
  · have hk : keyboardTokens (detailKeyboard (.int id)) =
        ["status_" ++ toString id ++ "_confirmed", "status_" ++ toString id ++ "_delivered",
         "status_" ++ toString id ++ "_cancelled", "delete_" ++ toString id, "filter_all"] := rfl
    rw [hk]
    simp
  · intro env m order store hstore hid
    subst hid
    simp only [notifyNewOrder, hstore]
    rfl
  · intro env m queryId chatId messageId hadmin
    have h1 := setStatusPress_eq env m queryId chatId messageId id status hadmin hus
    have h2 := deletePress_eq env m queryId chatId messageId id hadmin
    refine ⟨h1, h2, openPress_eq env m queryId chatId messageId id hadmin, ?_⟩
    intro store hstore
    constructor
    · rw [h1]
      have hc := updateOrderStatus_calls env m (.int id) (some status) store hstore
      split
      · simp only [hc, List.filter_append, showOrderDetail_no_store]
        rfl
      · simp only [hc, List.filter_append]
        rfl
    · rw [h2]
      have hc := deleteOrder_calls env m (.int id) store hstore
      split
      · simp only [hc, List.filter_append, showOrdersList_no_store]
        rfl
      · simp only [hc, List.filter_append]
        rfl

/-- Witness of C20: the administrator presses `status_42_confirmed` and
`delete_42`; the store is asked to update order 42 to `confirmed`, and to
delete order 42. -/
theorem token_round_trip_witness :
    setStatusPress "q1" 123456789 7 42 "confirmed" =
      .button ⟨"q1", 123456789, 7, "status_42_confirmed"⟩ ∧
    deletePress "q2" 123456789 7 42 = .button ⟨"q2", 123456789, 7, "delete_42"⟩ ∧
    (handleEvent (sampleBotEnv (some okStore)) sampleMirror
        (setStatusPress "q1" 123456789 7 42 "confirmed")).2.filter BotEffect.isStoreCall =
      [.storeUpdate (.int 42) (some "confirmed")] ∧
    (handleEvent (sampleBotEnv (some okStore)) sampleMirror
        (deletePress "q2" 123456789 7 42)).2.filter BotEffect.isStoreCall =
      [.storeDelete (.int 42)] ∧
    matchingBranches "status_42_confirmed" = [.status] :=
  ⟨by decide, by decide,
   (((token_round_trip 42 "confirmed" (by decide)).2.2.2.2.2.2.2.2.2.2.2.2.2.2
      (sampleBotEnv (some okStore)) sampleMirror "q1" 123456789 7 (by decide)).2.2.2
      okStore rfl).1,
   (((token_round_trip 42 "confirmed" (by decide)).2.2.2.2.2.2.2.2.2.2.2.2.2.2
      (sampleBotEnv (some okStore)) sampleMirror "q2" 123456789 7 (by decide)).2.2.2
      okStore rfl).2,
   (token_round_trip 42 "confirmed" (by decide)).2.1⟩

/-! ## Lemmas on runs of the bot -/

theorem mem_cacheSet (m : OrderCache) (k : JSNum) (v : Order) (e : JSNum × Order)
    (h : e ∈ cacheSet m k v) : e = (k, v) ∨ e ∈ m := by
  unfold cacheSet at h
  split at h
  · obtain ⟨a, ha, hae⟩ := List.mem_map.1 h
    by_cases hk : hasKey k a = true
    · rw [if_pos hk] at hae
      exact Or.inl hae.symm
    · rw [if_neg hk] at hae
      exact Or.inr (hae ▸ ha)
  · split at h
    · rcases List.mem_append.1 h with h1 | h1
      · exact Or.inr (mem_of_mem_takeWhile _ _ _ h1)
      · rcases List.mem_cons.1 h1 with h2 | h2
        · exact Or.inl h2
        · exact Or.inr (mem_of_mem_dropWhile _ _ _ h2)
    · rcases List.mem_append.1 h with h1 | h1
      · exact Or.inr h1
      · exact Or.inl (List.mem_singleton.1 h1)

theorem keys_map_replace (m : OrderCache) (k : JSNum) (v : Order) :
    (m.map (fun e => if hasKey k e then (k, v) else e)).map (·.1) = m.map (·.1) := by
  induction m with
  | nil => rfl
  | cons e es ih =>
    rw [List.map_cons, List.map_cons, List.map_cons, ih]
    cases he : hasKey k e
    · rw [if_neg Bool.false_ne_true]
    · rw [if_pos rfl]
      have hk : e.1 = k := by simpa [hasKey] using he
      rw [hk]

/-- The assignment `orderCache[k] = v` keeps the keys pairwise distinct. -/
theorem nodup_keys_cacheSet (m : OrderCache) (k : JSNum) (v : Order)
    (h : (m.map (·.1)).Nodup) : ((cacheSet m k v).map (·.1)).Nodup := by
  unfold cacheSet
  split
  · rw [keys_map_replace]
    exact h
  · rename_i hany
    have hk : k ∉ m.map (·.1) := by
      intro hmem
      obtain ⟨e, he, hek⟩ := List.mem_map.1 hmem
      exact hany (List.any_eq_true.2 ⟨e, he, by simpa [hasKey] using hek⟩)
    split
    · rename_i i _
      have hsplit : m.map (·.1) = (m.takeWhile (beforeIndex i)).map (·.1) ++
          (m.dropWhile (beforeIndex i)).map (·.1) := by
        rw [← List.map_append, List.takeWhile_append_dropWhile]
      rw [List.map_append, List.map_cons, List.nodup_middle, List.nodup_cons, ← hsplit]
      exact ⟨hk, h⟩
    · rw [List.map_append, List.map_cons, List.map_nil, List.nodup_middle, List.append_nil,
        List.nodup_cons]
      exact ⟨hk, h⟩

theorem keysAreIds_cacheSet (m : OrderCache) (k : JSNum) (v : Order)
    (h : KeysAreIds m) (hk : k = .int v.id) : KeysAreIds (cacheSet m k v) := by
  refine ⟨?_, nodup_keys_cacheSet m k v h.2⟩
  intro e he
  rcases mem_cacheSet m k v e he with h1 | h1
  · rw [h1]; exact hk
  · exact h.1 e h1

theorem keysAreIds_cacheDelete (m : OrderCache) (k : JSNum) (h : KeysAreIds m) :
    KeysAreIds (cacheDelete m k) := by
  unfold cacheDelete
  refine ⟨fun e he => h.1 e (List.mem_filter.1 he).1, ?_⟩
  exact h.2.sublist (List.Sublist.map _ (List.filter_sublist _))

theorem keysAreIds_load (rows : List Order) : ∀ m : OrderCache, KeysAreIds m →
    KeysAreIds (rows.foldl (fun c order => cacheSet c (.int order.id) order) m) := by
  induction rows with
  | nil => intro m h; exact h
  | cons r rs ih =>
    intro m h
    rw [List.foldl_cons]
    exact ih _ (keysAreIds_cacheSet m _ r h rfl)

theorem keysAreIds_loadOrders (env : BotEnv) (m : OrderCache) (h : KeysAreIds m) :
    KeysAreIds (loadOrders env m).1 := by
  unfold loadOrders
  split
  · exact h
  · split
    · exact keysAreIds_load _ m h
    · exact h
    · exact h

theorem keysAreIds_notifyNewOrder (env : BotEnv) (m : OrderCache) (order : Order)
    (h : KeysAreIds m) : KeysAreIds (notifyNewOrder env m order).1 := by
  unfold notifyNewOrder
  split
  · exact h
  · exact keysAreIds_cacheSet m _ order h rfl

theorem keysAreIds_updateOrderStatus (env : BotEnv) (m : OrderCache) (orderId : JSNum)
    (newStatus : Option String) (hu : UpdateReturnsRequestedId env) (h : KeysAreIds m) :
    KeysAreIds (updateOrderStatus env m orderId newStatus).2.1 := by
  unfold updateOrderStatus
  split
  · exact h
  · rename_i store hs
    split
    · rename_i row hrow
      exact keysAreIds_cacheSet m orderId row h (hu store hs orderId newStatus row hrow)
    · exact h
    · exact h

theorem keysAreIds_deleteOrder (env : BotEnv) (m : OrderCache) (orderId : JSNum)
    (h : KeysAreIds m) : KeysAreIds (deleteOrder env m orderId).2.1 := by
  unfold deleteOrder
  split
  · exact h
  · split
    · exact keysAreIds_cacheDelete m orderId h
    · exact h
    · exact h

theorem onStatusButton_mirror (env : BotEnv) (m : OrderCache) (q : CallbackQuery) :
    (onStatusButton env m q).1 =
      (updateOrderStatus env m (parseInt (statusParts q.data).1) (statusParts q.data).2).2.1 := by
  unfold onStatusButton
  dsimp only
  split <;> rfl

theorem onDeleteButton_mirror (env : BotEnv) (m : OrderCache) (q : CallbackQuery) :
    (onDeleteButton env m q).1 =
      (deleteOrder env m (parseInt (some (replaceWithEmpty q.data "delete_")))).2.1 := by
  unfold onDeleteButton
  dsimp only
  split <;> rfl

theorem keysAreIds_onCallbackQuery (env : BotEnv) (m : OrderCache) (q : CallbackQuery)
    (hu : UpdateReturnsRequestedId env) (h : KeysAreIds m) :
    KeysAreIds (onCallbackQuery env m q).1 := by
  unfold onCallbackQuery
  split
  · exact h
  split
  · exact h
  split
  · exact h
  split
  · rw [onStatusButton_mirror]
    exact keysAreIds_updateOrderStatus env m _ _ hu h
  split
  · rw [onDeleteButton_mirror]
    exact keysAreIds_deleteOrder env m _ h
  split
  · exact h
  split
  · exact keysAreIds_loadOrders env m h
  · exact h

theorem keysAreIds_handleEvent (env : BotEnv) (m : OrderCache) (ev : Event)
    (hu : UpdateReturnsRequestedId env) (h : KeysAreIds m) :
    KeysAreIds (handleEvent env m ev).1 := by
  cases ev with
  | start chatId => exact h
  | orders chatId => exact h
  | new chatId => exact h
  | stats chatId => exact h
  | button q => exact keysAreIds_onCallbackQuery env m q hu h
  | timer chatId filter => exact h
  | newOrder order => exact keysAreIds_notifyNewOrder env m order h
  | startup => exact keysAreIds_loadOrders env m h

theorem keysAreIds_applyOp (env : BotEnv) (m : OrderCache) (op : MirrorOp)
    (hu : UpdateReturnsRequestedId env) (h : KeysAreIds m) : KeysAreIds (applyOp env m op) := by
  cases op with
  | reload => exact keysAreIds_loadOrders env m h
  | notify order => exact keysAreIds_notifyNewOrder env m order h
  | setStatus orderId newStatus => exact keysAreIds_updateOrderStatus env m _ _ hu h
  | delete orderId => exact keysAreIds_deleteOrder env m _ h
  | event ev => exact keysAreIds_handleEvent env m ev hu h

theorem keysAreIds_runFrom (steps : List (BotEnv × MirrorOp)) : ∀ m : OrderCache,
    (∀ s ∈ steps, UpdateReturnsRequestedId s.1) → KeysAreIds m → KeysAreIds (runFrom m steps) := by
  induction steps with
  | nil => intro m _ h; exact h
  | cons s ss ih =>
    intro m hu h
    unfold runFrom
    rw [List.foldl_cons]
    exact ih _ (fun s2 hs2 => hu s2 (List.mem_cons_of_mem _ hs2))
      (keysAreIds_applyOp s.1 m s.2 (hu s (List.mem_cons_self _ _)) h)

theorem filter_key_length_le (m : OrderCache) (k : JSNum) (h : (m.map (·.1)).Nodup) :
    (m.filter (hasKey k)).length ≤ 1 := by
  induction m with
  | nil => simp
  | cons e es ih =>
    rw [List.map_cons, List.nodup_cons] at h
    cases he : hasKey k e
    · rw [List.filter_cons_of_neg (by simp [he])]
      exact ih h.2
    · have hk : e.1 = k := by simpa [hasKey] using he
      have hnone : es.filter (hasKey k) = [] := by
        rw [List.filter_eq_nil_iff]
        intro a ha hka
        have hak : a.1 = k := by simpa [hasKey] using hka
        exact h.1 (List.mem_map.2 ⟨a, ha, hak.trans hk.symm⟩)
      rw [List.filter_cons_of_pos he, hnone]
      simp

theorem cacheGet_mem (m : OrderCache) (k : JSNum) (o : Order) (h : cacheGet m k = some o) :
    (k, o) ∈ m := by
  unfold cacheGet at h
  cases hf : m.find? (hasKey k) with
  | none => rw [hf] at h; exact absurd h (by simp)
  | some e =>
    rw [hf] at h
    have hk : e.1 = k := by simpa [hasKey] using List.find?_some hf
    have ho : e.2 = o := by simpa using h
    have hmem := List.mem_of_find?_eq_some hf
    rw [← hk, ← ho]
    exact hmem

/-- The sample store answers an update with the row of the requested id. -/
theorem okStore_returns_requested_id : UpdateReturnsRequestedId (sampleBotEnv (some okStore)) := by
  intro store hs orderId newStatus row hrow
  have hst : store = okStore := (Option.some.inj hs).symm
  subst hst
  cases orderId with
  | int n =>
    have hr : row = { sampleRow n with status := showOpt newStatus } :=
      (StoreResult.data.inj hrow).symm
    rw [hr]
    rfl
  | nan => exact StoreResult.noConfusion hrow

/-! ## Theorem on runs of the bot -/

/-- C21: in the mirror after any run from the empty mirror, made of reloads,
new-order notifications, set-status calls, deletes and events of the bot, in
which the store answers every update-by-id with a record of the requested id,
each entry kept under a key is an order whose id is that key, no key occurs
twice, and so at most one entry belongs to any order id. -/
theorem mirror_keys_are_ids (steps : List (BotEnv × MirrorOp))
    (hu : ∀ s ∈ steps, UpdateReturnsRequestedId s.1) :
    (∀ e ∈ mirrorAfter steps, e.1 = .int e.2.id) ∧
    (∀ k o, cacheGet (mirrorAfter steps) k = some o → k = .int o.id) ∧
    ((mirrorAfter steps).map (·.1)).Nodup ∧
    (∀ n : Int, ((mirrorAfter steps).filter (fun e => decide (e.2.id = n))).length ≤ 1) := by
  have hinv : KeysAreIds (mirrorAfter steps) :=
    keysAreIds_runFrom steps [] hu ⟨fun e he => absurd he (List.not_mem_nil _), List.nodup_nil⟩
  refine ⟨hinv.1, ?_, hinv.2, ?_⟩
  · intro k o hget
    exact hinv.1 (k, o) (cacheGet_mem _ k o hget)
  · intro n
    have hcongr : (mirrorAfter steps).filter (fun e => decide (e.2.id = n)) =
        (mirrorAfter steps).filter (hasKey (.int n)) := by
      apply List.filter_congr
      intro e he
      have hk := hinv.1 e he
      simp only [hasKey, hk, JSNum.int.injEq]
    rw [hcongr]
    exact filter_key_length_le _ _ hinv.2

/-- Witness of C21: after the sample run the mirror holds the orders 42 and
43, each under its id. -/
theorem mirror_keys_are_ids_witness :
    ((mirrorAfter sampleRun).map (·.1)).Nodup ∧
    ((mirrorAfter sampleRun).filter (fun e => decide (e.2.id = 42))).length ≤ 1 :=
  have h := mirror_keys_are_ids sampleRun (by
    intro s hs
    simp only [sampleRun, List.mem_cons, List.mem_singleton, List.not_mem_nil, or_false] at hs
    rcases hs with rfl | rfl | rfl | rfl | rfl <;> exact okStore_returns_requested_id)
  ⟨h.2.2.1, h.2.2.2 42⟩

end FashionStore
